import Mathlib

/-!
Verification development for the star-map geometry pipeline.

The rational-valued part below is a shallow embedding of the geometry
builder (`buildStarMapGeometry`), the label collision detector, the
primitive helpers and the planet-position provider.  Calls into the
external `astronomy-engine` library and the floating-point transcendental
functions (`Math.sin`, `Math.cos`, `Math.sqrt` inside the projection and
the magnitude curve) are modelled as explicit provider parameters, as the
specification directs: the ephemeris is a black-box function.  A separate
real-valued model of `projectAzimuthalEquidistant`,
`inverseAzimuthalEquidistant` and `magnitudeToRadius` is used for the
purely mathematical claims.
-/

/-- A 2D point with rational coordinates (source `Point2D`). -/
structure Point2Q where
  x : ℚ
  y : ℚ
deriving DecidableEq, Repr

/-- Horizontal coordinates returned by the ephemeris provider. -/
structure AltAz where
  altitude : ℚ
  azimuth : ℚ
deriving DecidableEq, Repr

/-- Text anchor (source union `'start' | 'middle' | 'end'`). -/
inductive Anchor where
  | start
  | middle
  | «end»
deriving DecidableEq, Repr

/-- Text baseline (source union `'top' | 'middle' | 'bottom'`). -/
inductive Baseline where
  | top
  | middle
  | bottom
deriving DecidableEq, Repr

/-- Render primitive (source tagged union `RenderPrimitive`). -/
inductive RenderPrimitive where
  | circle (center : Point2Q) (radius : ℚ) (id : Option ℚ)
  | line (pstart pend : Point2Q)
  | path (points : List Point2Q) (closed : Bool)
  | text (position : Point2Q) (value : String) (anchor : Anchor) (baseline : Baseline)
deriving DecidableEq, Repr

/-- Layer names (source `LayerType`). -/
inductive LayerType where
  | background
  | topoContours
  | grid
  | horizon
  | constellations
  | constellationNames
  | stars
  | starGlow
  | starNames
  | planets
  | cardinals
  | degreeRing
  | metadata
  | hourIndices
deriving DecidableEq, Repr

/-- A render layer (source `RenderLayer`). -/
structure RenderLayer where
  type : LayerType
  primitives : List RenderPrimitive
  visible : Bool
deriving DecidableEq, Repr

/-- Model of a JavaScript `Date`: `time` is `none` when `getTime()` is
`NaN` (an invalid date), and `iso` is the `toISOString()` rendering. -/
structure JSDate where
  time : Option ℚ
  iso : String
deriving DecidableEq, Repr

/-- Observer (source type `Observer`). -/
structure Observer where
  latitude : ℚ
  longitude : ℚ
  elevation : ℚ
  date : JSDate
deriving DecidableEq, Repr

/-- Geometry bounds (source `StarMapGeometry.bounds`). -/
structure GeometryBounds where
  width : ℚ
  height : ℚ
  centerX : ℚ
  centerY : ℚ
  radius : ℚ
deriving DecidableEq, Repr

/-- Geometry metadata (source `StarMapGeometry.metadata`). -/
structure GeometryMetadata where
  starCount : ℕ
  visibleStarCount : ℕ
  timestamp : JSDate
  location : String
deriving DecidableEq, Repr

/-- Complete geometry document.  The source stores layers in a `Map`
whose insertion order is the paint order; the assoc list keeps exactly
that order, and every key is inserted at most once per build. -/
structure StarMapGeometry where
  layers : List (LayerType × RenderLayer)
  bounds : GeometryBounds
  metadata : GeometryMetadata
deriving DecidableEq, Repr

/-- Catalog star (source `CatalogStar`). -/
structure CatalogStar where
  hip : ℚ
  ra : ℚ
  dec : ℚ
  mag : ℚ
  name : Option String
deriving DecidableEq, Repr

/-- Projected star (source `ProjectedStar`). -/
structure ProjectedStar where
  hip : ℚ
  x : ℚ
  y : ℚ
  altitude : ℚ
  azimuth : ℚ
  magnitude : ℚ
  radius : ℚ
  name : Option String
deriving DecidableEq, Repr

/-- Planet position (source `PlanetPosition` in planets.ts). -/
structure PlanetPosition where
  altitude : ℚ
  azimuth : ℚ
  name : String
  magnitude : ℚ
deriving DecidableEq, Repr

/-- Star rendering style (source `'dots' | 'glow' | 'spikes'`). -/
inductive StarStyle where
  | dots
  | glow
  | spikes
deriving DecidableEq, Repr

/-- Render options (the fields of the source `RenderOptions` consumed by
the geometry builder). -/
structure RenderOptions where
  magnitudeLimit : ℚ
  starSizeMin : ℚ
  starSizeMax : ℚ
  starStyle : StarStyle
  showConstellations : Bool
  showConstellationNames : Bool
  showStarNames : Bool
  showPlanets : Bool
  showHorizon : Bool
  showGrid : Bool
  showCardinals : Bool
  showDegreeRing : Bool
  showTopoContours : Bool
  showMapCoordinates : Bool
  showMapDate : Bool
deriving DecidableEq, Repr

/-- One vertex of a constellation polyline (RA/Dec degrees). -/
structure RaDec where
  ra : ℚ
  dec : ℚ
deriving DecidableEq, Repr

/-- A constellation from the bundled dataset: a name and a list of
polylines, each a list of RA/Dec vertices. -/
structure Constellation where
  name : String
  lines : List (List RaDec)
deriving DecidableEq, Repr

/-- External and transcendental functions the builder calls, passed in
explicitly.  `raDecToAltAz` and `planetHorizon` model the astronomy-engine
calls (the spec treats the ephemeris as a black box); `proj` models
`projectAzimuthalEquidistant` (whose trigonometry is not rational-valued;
the real-valued model is defined separately below and bridging lemmas
relate the two at the concrete angles the counterexamples use); `sqrtQ`
models `Math.sqrt` inside `magnitudeToRadius`; `cosDeg d` and `sinDeg d`
model the cosine and sine of `d` degrees, i.e. of `d * PI / 180` radians. -/
structure Providers where
  raDecToAltAz : ℚ → ℚ → Observer → AltAz
  planetHorizon : Observer → String → Except Unit AltAz
  proj : ℚ → ℚ → Point2Q
  sqrtQ : ℚ → ℚ
  cosDeg : ℚ → ℚ
  sinDeg : ℚ → ℚ

/- ### primitives.ts -/

/-- Source `createCircle`. -/
def createCircle (x y radius : ℚ) (id : Option ℚ) : RenderPrimitive :=
  RenderPrimitive.circle ⟨x, y⟩ radius id

/-- Source `createLine`. -/
def createLine (x1 y1 x2 y2 : ℚ) : RenderPrimitive :=
  RenderPrimitive.line ⟨x1, y1⟩ ⟨x2, y2⟩

/-- Source `createPath`. -/
def createPath (points : List Point2Q) (closed : Bool) : RenderPrimitive :=
  RenderPrimitive.path points closed

/-- Source `createText`. -/
def createText (x y : ℚ) (value : String) (anchor : Anchor) (baseline : Baseline) :
    RenderPrimitive :=
  RenderPrimitive.text ⟨x, y⟩ value anchor baseline

/-- Source `magnitudeToRadius` with `Math.sqrt` supplied as `sqrtQ`
(the real-valued version used for the magnitude-curve claim is
`magnitudeToRadius` below). -/
def magnitudeToRadiusQ (sqrtQ : ℚ → ℚ)
    (magnitude minRadius maxRadius magnitudeLimit : ℚ) : ℚ :=
  let minMag : ℚ := -1.5
  let magRange := magnitudeLimit - minMag
  let normalized := (magnitude - minMag) / magRange
  let clamped := max 0 (min 1 normalized)
  let sizeFactor := sqrtQ (1 - clamped)
  minRadius + sizeFactor * (maxRadius - minRadius)

/- ### observer.ts -/

/-- Result of `validateObserver`. -/
structure ValidationResult where
  valid : Bool
  errors : List String
deriving DecidableEq, Repr

/-- Source `validateObserver`: collects range errors for latitude,
longitude, elevation and date validity; `valid` iff no errors. -/
def validateObserver (observer : Observer) : ValidationResult :=
  let errors : List String :=
    (if observer.latitude < -90 ∨ 90 < observer.latitude then
      ["Latitude must be between -90 and 90 degrees"] else []) ++
    (if observer.longitude < -180 ∨ 180 < observer.longitude then
      ["Longitude must be between -180 and 180 degrees"] else []) ++
    (if observer.elevation < -500 ∨ 10000 < observer.elevation then
      ["Elevation must be between -500 and 10000 meters"] else []) ++
    (if observer.date.time = none then ["Invalid date"] else [])
  ⟨errors.isEmpty, errors⟩

/-- Renders a nonnegative rational with two decimal places, modelling
JavaScript `Number.prototype.toFixed(2)` (round to hundredths; the
callers pass absolute values, for which rounding half up matches). -/
def fix2 (q : ℚ) : String :=
  let n : ℤ := Rat.floor (q * 100 + 1/2)
  let ip := n / 100
  let fp := (n % 100).natAbs
  toString ip ++ "." ++ (if fp < 10 then "0" else "") ++ toString fp

/-- Source `formatLocation`. -/
def formatLocation (observer : Observer) : String :=
  let latDir := if 0 ≤ observer.latitude then "N" else "S"
  let lonDir := if 0 ≤ observer.longitude then "E" else "W"
  fix2 |observer.latitude| ++ ("°") ++ latDir ++ (", ") ++
    fix2 |observer.longitude| ++ ("°") ++ lonDir

/-- Source `formatDateTime`: `toISOString().replace('T',' ').slice(0,19) + ' UTC'`. -/
def formatDateTime (observer : Observer) : String :=
  ((observer.date.iso.replace ("T") (" ")).take 19) ++ (" UTC")

/- ### planets.ts -/

/-- The fixed body list of `getPlanetPositions` (name, assumed magnitude). -/
def planetBodies : List (String × ℚ) :=
  [("Mercury", 0), ("Venus", -4), ("Mars", 0), ("Jupiter", -2), ("Saturn", 0)]

/-- The loop body of `getPlanetPositions` for one body: the
astronomy-engine `Equator`/`Horizon` pair (modelled by the function
argument) either throws (`Except.error`, caught and skipped) or yields
horizontal coordinates; a body at altitude ≤ 0 is skipped. -/
def planetOf (horizonFn : Observer → String → Except Unit AltAz) (observer : Observer)
    (body : String × ℚ) : Option PlanetPosition :=
  match horizonFn observer body.1 with
  | Except.error _ => none
  | Except.ok hor =>
    if 0 < hor.altitude then
      some ⟨hor.altitude, hor.azimuth, body.1, body.2⟩
    else
      none

/-- Source `getPlanetPositions`: the per-body loop over the fixed body
list, collecting the successful above-horizon results in order. -/
def getPlanetPositions (P : Providers) (observer : Observer) : List PlanetPosition :=
  planetBodies.filterMap (planetOf P.planetHorizon observer)

/-- A provider wrapper that throws for one named body and behaves as
the wrapped provider for every other body (used to express a single
per-body ephemeris failure). -/
def failOn (b : String) (horizonFn : Observer → String → Except Unit AltAz) :
    Observer → String → Except Unit AltAz :=
  fun observer n => if n = b then Except.error () else horizonFn observer n

/- ### Label collision detector -/

/-- Axis-aligned bounding box (source `BoundingBox`). -/
structure BoundingBox where
  x : ℚ
  y : ℚ
  width : ℚ
  height : ℚ
deriving DecidableEq, Repr

/-- Source `estimateBoundingBox`: width from the character-count
heuristic, height from the font size, anchor-adjusted and inflated by
the detector padding. -/
def estimateBoundingBox (padding x y : ℚ) (text : String) (anchor : Anchor)
    (fontSize : ℚ) : BoundingBox :=
  let charWidth := fontSize * 0.6
  let width := (text.length : ℚ) * charWidth
  let height := fontSize * 1.2
  let adjustedX :=
    match anchor with
    | Anchor.middle => x - width / 2
    | Anchor.end => x - width
    | Anchor.start => x
  ⟨adjustedX - padding, y - height / 2 - padding, width + padding * 2, height + padding * 2⟩

/-- Source `intersects`: the separating-axis test on two boxes. -/
def intersectsB (a b : BoundingBox) : Bool :=
  !(decide (a.x + a.width < b.x) || decide (b.x + b.width < a.x) ||
    decide (a.y + a.height < b.y) || decide (b.y + b.height < a.y))

/-- Source `canPlace`: linear scan of the placed boxes. -/
def canPlace (padding : ℚ) (placed : List BoundingBox) (x y : ℚ) (text : String)
    (anchor : Anchor) (fontSize : ℚ) : Bool :=
  placed.all fun p => !(intersectsB (estimateBoundingBox padding x y text anchor fontSize) p)

/-- Source `place`: records the box unconditionally. -/
def place (padding : ℚ) (placed : List BoundingBox) (x y : ℚ) (text : String)
    (anchor : Anchor) (fontSize : ℚ) : List BoundingBox :=
  placed ++ [estimateBoundingBox padding x y text anchor fontSize]

/-- Source `tryPlace`: `canPlace` followed by `place` on success. -/
def tryPlace (padding : ℚ) (placed : List BoundingBox) (x y : ℚ) (text : String)
    (anchor : Anchor) (fontSize : ℚ) : Bool × List BoundingBox :=
  if canPlace padding placed x y text anchor fontSize then
    (true, place padding placed x y text anchor fontSize)
  else
    (false, placed)

/- ### Geometry builder phases -/

/-- Comparison standing for the source pattern
`Math.sqrt(dx*dx + dy*dy) < r`; for `0 ≤ r` it is equivalent to the
square-free form used here, which keeps the builder rational-valued
(lemma `distLTb_iff_sqrt` below proves the equivalence). -/
def distLTb (dx dy r : ℚ) : Bool :=
  decide (dx * dx + dy * dy < r * r)

/-- A label placement request: position, text, anchor and font size as
handed to the collision detector. -/
structure LabelSpec where
  x : ℚ
  y : ℚ
  text : String
  anchor : Anchor
  fontSize : ℚ
deriving DecidableEq, Repr

/-- A collision-detector phase: each item first contributes its
unconditional primitives, then optionally attempts one label through
`tryPlace`, emitting the corresponding text primitive exactly on
success.  This is the shape of the constellation-name, star-name,
planet and degree-ring loops of `buildStarMapGeometry`. -/
def runPhase (f : α → List RenderPrimitive × Option LabelSpec) :
    List α → List BoundingBox → List RenderPrimitive × List BoundingBox
  | [], st => ([], st)
  | a :: rest, st =>
    let step := f a
    match step.2 with
    | none =>
      let tail := runPhase f rest st
      (step.1 ++ tail.1, tail.2)
    | some l =>
      let attempt := tryPlace 8 st l.x l.y l.text l.anchor l.fontSize
      let here :=
        if attempt.1 then
          step.1 ++ [createText l.x l.y l.text l.anchor Baseline.middle]
        else
          step.1
      let tail := runPhase f rest attempt.2
      (here ++ tail.1, tail.2)

/-- The star-projection loop of `buildStarMapGeometry`: keep catalog
stars with `mag ≤ magnitudeLimit` whose computed altitude is positive,
project and scale them, and compute the rendered radius. -/
def projectStars (P : Providers) (stars : List CatalogStar) (observer : Observer)
    (options : RenderOptions) (center scale : ℚ) : List ProjectedStar :=
  stars.filterMap fun star =>
    if options.magnitudeLimit < star.mag then
      none
    else
      let c := P.raDecToAltAz star.ra star.dec observer
      if c.altitude ≤ 0 then
        none
      else
        let projected := P.proj c.altitude c.azimuth
        let radius := magnitudeToRadiusQ P.sqrtQ star.mag options.starSizeMin
          options.starSizeMax options.magnitudeLimit
        some ⟨star.hip, center + projected.x * scale, center + projected.y * scale,
          c.altitude, c.azimuth, star.mag, radius, star.name⟩

/-- The topographic-contour step: one circle per altitude step. -/
def topoPrims (center scale : ℚ) : List RenderPrimitive :=
  ([15, 30, 45, 60, 75] : List ℚ).map fun alt =>
    createCircle center center ((90 - alt) / 90 * scale) (some alt)

/-- The star-glow/spikes step over the ring-filtered stars.  The spike
angle `(i * 2 * PI) / numSpikes + PI / 4` radians is `i * 360 / numSpikes + 45`
degrees, evaluated through the degree-valued trigonometry providers. -/
def starGlowPrims (P : Providers) (options : RenderOptions)
    (filteredStars : List ProjectedStar) : List RenderPrimitive :=
  (filteredStars.filter fun s => decide (s.magnitude < 3.5)).flatMap fun star =>
    let brightnessFactor := max 0.5 ((4 - star.magnitude) / 3)
    if options.starStyle = StarStyle.glow then
      [createCircle star.x star.y (star.radius * (2 + brightnessFactor * 2.5)) (some star.hip)]
    else
      let spikeLength := star.radius * (2 + brightnessFactor * 2)
      let numSpikes : ℕ := if star.magnitude < 1.5 then 6 else 4
      ((List.range numSpikes).map fun i =>
        let angleDeg := (i : ℚ) * 360 / (numSpikes : ℚ) + 45
        createLine (star.x - P.cosDeg angleDeg * spikeLength)
          (star.y - P.sinDeg angleDeg * spikeLength)
          (star.x + P.cosDeg angleDeg * spikeLength)
          (star.y + P.sinDeg angleDeg * spikeLength)) ++
      [createCircle star.x star.y (star.radius * 1.5) (some star.hip)]

/-- The constellation-lines step: for each consecutive vertex pair of
each polyline, emit the segment exactly when both endpoints are above
the horizon and both scaled endpoints lie strictly inside the
ring-exclusion radius `R`. -/
def constellationLinesOf (P : Providers) (observer : Observer)
    (constellations : List Constellation) (center scale R : ℚ) : List RenderPrimitive :=
  constellations.flatMap fun constellation =>
    constellation.lines.flatMap fun lineString =>
      (lineString.zip lineString.tail).filterMap fun pq =>
        let coord1 := P.raDecToAltAz pq.1.ra pq.1.dec observer
        let coord2 := P.raDecToAltAz pq.2.ra pq.2.dec observer
        if 0 < coord1.altitude ∧ 0 < coord2.altitude then
          let proj1 := P.proj coord1.altitude coord1.azimuth
          let proj2 := P.proj coord2.altitude coord2.azimuth
          let x1 := center + proj1.x * scale
          let y1 := center + proj1.y * scale
          let x2 := center + proj2.x * scale
          let y2 := center + proj2.y * scale
          if distLTb (x1 - center) (y1 - center) R ∧ distLTb (x2 - center) (y2 - center) R then
            some (createLine x1 y1 x2 y2)
          else
            none
        else
          none

/-- A pending constellation-name label before sorting. -/
structure ConstLabel where
  name : String
  x : ℚ
  y : ℚ
  pointCount : ℕ
deriving DecidableEq, Repr

/-- The constellation-label candidates: constellations with at least two
visible vertices whose centroid lies within 85% of the ring-exclusion
radius, labelled 15 units above the centroid. -/
def constellationLabelsOf (P : Providers) (observer : Observer)
    (constellations : List Constellation) (center scale R : ℚ) : List ConstLabel :=
  constellations.filterMap fun constellation =>
    let visiblePoints : List Point2Q :=
      constellation.lines.flatMap fun lineString =>
        lineString.filterMap fun point =>
          let coord := P.raDecToAltAz point.ra point.dec observer
          if 0 < coord.altitude then
            let proj := P.proj coord.altitude coord.azimuth
            some ⟨center + proj.x * scale, center + proj.y * scale⟩
          else
            none
    if 2 ≤ visiblePoints.length then
      let avgX := (visiblePoints.map Point2Q.x).sum / (visiblePoints.length : ℚ)
      let avgY := (visiblePoints.map Point2Q.y).sum / (visiblePoints.length : ℚ)
      if distLTb (avgX - center) (avgY - center) (R * 0.85) then
        some ⟨constellation.name, avgX, avgY - 15, visiblePoints.length⟩
      else
        none
    else
      none

/-- The constellation-name placement phase: candidates sorted by
descending visible-point count, then attempted through the detector at
font size 11. -/
def constellationNamesPhase (labels : List ConstLabel) (st : List BoundingBox) :
    List RenderPrimitive × List BoundingBox :=
  runPhase (fun l => ([], some ⟨l.x, l.y, l.name, Anchor.middle, 11⟩))
    (labels.mergeSort fun a b => decide (b.pointCount ≤ a.pointCount)) st

/-- JavaScript string truthiness for the optional star name: present and
nonempty. -/
def nameTruthy : Option String → Bool
  | some n => !(n = "")
  | none => false

/-- The star-name placement phase: named stars brighter than magnitude
2.5 inside the ring radius, brightest first, label offset to the upper
right of the marker, font size 9. -/
def starNamesPhase (projectedStars : List ProjectedStar) (center R : ℚ)
    (st : List BoundingBox) : List RenderPrimitive × List BoundingBox :=
  let brightStars :=
    (projectedStars.filter fun s =>
      !(decide (2.5 < s.magnitude) || !(nameTruthy s.name)) &&
        distLTb (s.x - center) (s.y - center) R).mergeSort
      fun a b => decide (a.magnitude ≤ b.magnitude)
  runPhase (fun star =>
    ([], some ⟨star.x + star.radius + 8, star.y - star.radius - 2,
      star.name.getD "", Anchor.start, 9⟩)) brightStars st

/-- The planets phase: each provider-returned planet is projected; those
at or beyond the ring radius are skipped, the rest get a fixed-size
marker and a label attempt at font size 9. -/
def planetsPhase (P : Providers) (planetPositions : List PlanetPosition)
    (center scale R : ℚ) (st : List BoundingBox) :
    List RenderPrimitive × List BoundingBox :=
  runPhase (fun planet =>
    let projected := P.proj planet.altitude planet.azimuth
    let planetX := center + projected.x * scale
    let planetY := center + projected.y * scale
    if distLTb (planetX - center) (planetY - center) R then
      ([createCircle planetX planetY 3 (some 0)],
        some ⟨planetX + 5, planetY - 5, planet.name, Anchor.start, 9⟩)
    else
      ([], none)) planetPositions st

/-- The horizon step: the 72-point altitude-0 circle of
`generateAltitudeCircle`, scaled, as one closed path. -/
def horizonPrims (P : Providers) (center scale : ℚ) : List RenderPrimitive :=
  [createPath ((List.range 72).map fun i =>
    let p := P.proj 0 ((i : ℚ) * 5)
    (⟨center + p.x * scale, center + p.y * scale⟩ : Point2Q)) true]

/-- Consecutive-point segments kept only when the endpoints are closer
than the given threshold (the grid's long-chord suppression). -/
def closeSegs (points : List Point2Q) (threshold : ℚ) : List RenderPrimitive :=
  (points.zip points.tail).filterMap fun pr =>
    if distLTb (pr.2.x - pr.1.x) (pr.2.y - pr.1.y) threshold then
      some (createLine pr.1.x pr.1.y pr.2.x pr.2.y)
    else
      none

/-- The grid step: an equatorial grid centred on the projected celestial
pole when the pole is above the horizon (declination circles, RA
meridians and a pole cross), otherwise a concentric alt-az fallback. -/
def gridPrims (P : Providers) (observer : Observer) (center scale : ℚ) :
    List RenderPrimitive :=
  let pole := P.raDecToAltAz 0 90 observer
  if 0 < pole.altitude then
    let polePt := P.proj pole.altitude pole.azimuth
    let poleX := center + polePt.x * scale
    let poleY := center + polePt.y * scale
    let declPrims :=
      ([75, 60, 45, 30, 15, 0, -15, -30, -45, -60] : List ℚ).flatMap fun dec =>
        let points : List Point2Q := (List.range 73).filterMap fun i =>
          let ra := (i : ℚ) / 72 * 360
          let c := P.raDecToAltAz ra dec observer
          if -5 < c.altitude then
            let projected := P.proj (max c.altitude 0.5) c.azimuth
            some ⟨center + projected.x * scale, center + projected.y * scale⟩
          else
            none
        closeSegs points (scale * 0.3)
    let raPrims :=
      (List.range 12).flatMap fun k =>
        let ra := (k : ℚ) * 30
        let raPoints : List Point2Q := ((List.range 60).map fun j => (89 : ℚ) - 3 * j).filterMap
          fun dec =>
            let c := P.raDecToAltAz ra dec observer
            if -5 < c.altitude then
              let projected := P.proj (max c.altitude 0.5) c.azimuth
              some ⟨center + projected.x * scale, center + projected.y * scale⟩
            else
              none
        closeSegs raPoints (scale * 0.2)
    let crossSize := scale * 0.02
    declPrims ++ raPrims ++
      [createLine (poleX - crossSize) poleY (poleX + crossSize) poleY,
        createLine poleX (poleY - crossSize) poleX (poleY + crossSize)]
  else
    (([15, 30, 45, 60, 75] : List ℚ).map fun alt =>
      createCircle center center ((90 - alt) / 90 * scale) none) ++
    ((List.range 12).map fun k =>
      let projected := P.proj 0 ((k : ℚ) * 30)
      createLine center center (center + projected.x * scale) (center + projected.y * scale))

/-- The cardinal-marker phase: N/E/S/W at altitude −5, placed through
the detector unconditionally (reserving space) at font size 14. -/
def cardinalsPhase (P : Providers) (center scale : ℚ) (st : List BoundingBox) :
    List RenderPrimitive × List BoundingBox :=
  ([("N", 0), ("E", 90), ("S", 180), ("W", 270)] : List (String × ℚ)).foldl
    (fun acc lc =>
      let projected := P.proj (-5) lc.2
      let x := center + projected.x * scale
      let y := center + projected.y * scale
      (acc.1 ++ [createText x y lc.1 Anchor.middle Baseline.middle],
        place 8 acc.2 x y lc.1 Anchor.middle 14))
    ([], st)

/-- The degree-ring phase: ticks every 2° with three length tiers, a
degree label attempt at major non-cardinal ticks (font size 8), and four
concentric bezel circles appended last. -/
def degreeRingPhase (P : Providers) (center scale : ℚ) (st : List BoundingBox) :
    List RenderPrimitive × List BoundingBox :=
  let outerBezelRadius := scale * 1.02
  let ringOuterRadius := scale * 1
  let ringInnerRadius := scale * 0.96
  let innerBezelRadius := scale * 0.94
  let textRadius := scale * 0.88
  let loop := runPhase (fun deg =>
    let c := P.cosDeg ((deg : ℚ) - 90)
    let s := P.sinDeg ((deg : ℚ) - 90)
    let isMajor := deg % 30 = 0
    let isMedium := deg % 10 = 0
    let isCardinal := deg = 0 ∨ deg = 90 ∨ deg = 180 ∨ deg = 270
    let tickInnerRadius :=
      if isMajor then innerBezelRadius
      else if isMedium then ringInnerRadius * 0.99
      else ringInnerRadius
    let tick := createLine (center + c * tickInnerRadius) (center + s * tickInnerRadius)
      (center + c * ringOuterRadius) (center + s * ringOuterRadius)
    let cand : Option LabelSpec :=
      if isMajor ∧ ¬isCardinal then
        some ⟨center + c * textRadius, center + s * textRadius,
          toString deg ++ ("°"), Anchor.middle, 8⟩
      else
        none
    ([tick], cand)) ((List.range 180).map fun i => i * 2) st
  (loop.1 ++
    [createCircle center center outerBezelRadius none,
      createCircle center center ringOuterRadius none,
      createCircle center center ringInnerRadius none,
      createCircle center center innerBezelRadius none], loop.2)

/-- The metadata step: optional location and date/time strings near the
bottom of the viewport. -/
def metadataPrims (observer : Observer) (options : RenderOptions)
    (center viewportSize : ℚ) : List RenderPrimitive :=
  (if options.showMapCoordinates then
    [createText center (viewportSize * 0.94) (formatLocation observer)
      Anchor.middle Baseline.middle]
  else []) ++
  (if options.showMapDate then
    [createText center (viewportSize * 0.97) (formatDateTime observer)
      Anchor.middle Baseline.middle]
  else [])

/-- The builder's scale factor: `viewportSize / 2 * 0.91` (margin). -/
def buildScale (viewportSize : ℚ) : ℚ :=
  viewportSize / 2 * 0.91

/-- The builder's centre coordinate: `viewportSize / 2`. -/
def buildCenter (viewportSize : ℚ) : ℚ :=
  viewportSize / 2

/-- The degree-ring inner (exclusion) radius: `scale * 0.96`. -/
def buildRingRadius (viewportSize : ℚ) : ℚ :=
  buildScale viewportSize * 0.96

/-- The builder's projected-star list. -/
def buildProjectedStars (P : Providers) (stars : List CatalogStar) (observer : Observer)
    (options : RenderOptions) (viewportSize : ℚ) : List ProjectedStar :=
  projectStars P stars observer options (buildCenter viewportSize) (buildScale viewportSize)

/-- The projected stars inside the ring-exclusion radius (the stars
layer content). -/
def buildFilteredStars (P : Providers) (stars : List CatalogStar) (observer : Observer)
    (options : RenderOptions) (viewportSize : ℚ) : List ProjectedStar :=
  (buildProjectedStars P stars observer options viewportSize).filter fun star =>
    distLTb (star.x - buildCenter viewportSize) (star.y - buildCenter viewportSize)
      (buildRingRadius viewportSize)

/-- The constellation-name step: primitives and detector state after the
first label phase (the detector starts empty here; in source order no
label was placed before this phase). -/
def buildCnStep (P : Providers) (observer : Observer) (options : RenderOptions)
    (constellations : List Constellation) (viewportSize : ℚ) :
    List RenderPrimitive × List BoundingBox :=
  if options.showConstellationNames then
    constellationNamesPhase
      (constellationLabelsOf P observer constellations (buildCenter viewportSize)
        (buildScale viewportSize) (buildRingRadius viewportSize)) []
  else ([], [])

/-- The star-name step (second label phase). -/
def buildSnStep (P : Providers) (stars : List CatalogStar) (observer : Observer)
    (options : RenderOptions) (constellations : List Constellation) (viewportSize : ℚ) :
    List RenderPrimitive × List BoundingBox :=
  let prev := buildCnStep P observer options constellations viewportSize
  if options.showStarNames then
    starNamesPhase (buildProjectedStars P stars observer options viewportSize)
      (buildCenter viewportSize) (buildRingRadius viewportSize) prev.2
  else ([], prev.2)

/-- The planets step (third label phase). -/
def buildPlStep (P : Providers) (stars : List CatalogStar) (observer : Observer)
    (options : RenderOptions) (constellations : List Constellation) (viewportSize : ℚ) :
    List RenderPrimitive × List BoundingBox :=
  let prev := buildSnStep P stars observer options constellations viewportSize
  if options.showPlanets then
    planetsPhase P (getPlanetPositions P observer) (buildCenter viewportSize)
      (buildScale viewportSize) (buildRingRadius viewportSize) prev.2
  else ([], prev.2)

/-- The cardinals step (fourth label phase; unconditional placements). -/
def buildCdStep (P : Providers) (stars : List CatalogStar) (observer : Observer)
    (options : RenderOptions) (constellations : List Constellation) (viewportSize : ℚ) :
    List RenderPrimitive × List BoundingBox :=
  let prev := buildPlStep P stars observer options constellations viewportSize
  if options.showCardinals then
    cardinalsPhase P (buildCenter viewportSize) (buildScale viewportSize) prev.2
  else ([], prev.2)

/-- The degree-ring step (fifth and last label phase). -/
def buildDrStep (P : Providers) (stars : List CatalogStar) (observer : Observer)
    (options : RenderOptions) (constellations : List Constellation) (viewportSize : ℚ) :
    List RenderPrimitive × List BoundingBox :=
  let prev := buildCdStep P stars observer options constellations viewportSize
  if options.showDegreeRing then
    degreeRingPhase P (buildCenter viewportSize) (buildScale viewportSize) prev.2
  else ([], prev.2)

/-- Source `buildStarMapGeometry`: projects the catalog, then runs the
build steps in source order, threading one fresh collision-detector
state (padding 8) through the label phases (constellation names, star
names, planet labels, cardinals, degree-ring labels, in that execution
order) and inserting layers in source order. -/
def buildStarMapGeometry (P : Providers) (stars : List CatalogStar) (observer : Observer)
    (options : RenderOptions) (constellations : List Constellation)
    (viewportSize : ℚ) : StarMapGeometry :=
  let scale := buildScale viewportSize
  let center := buildCenter viewportSize
  let projectedStars := buildProjectedStars P stars observer options viewportSize
  let topoEntries : List (LayerType × RenderLayer) :=
    if options.showTopoContours then
      [(LayerType.topoContours, ⟨LayerType.topoContours, topoPrims center scale, true⟩)]
    else []
  let starPrimitives := (buildFilteredStars P stars observer options viewportSize).map
    fun star => createCircle star.x star.y star.radius (some star.hip)
  let starEntries : List (LayerType × RenderLayer) :=
    [(LayerType.stars, ⟨LayerType.stars, starPrimitives, true⟩)]
  let glowEntries : List (LayerType × RenderLayer) :=
    if options.starStyle = StarStyle.glow ∨ options.starStyle = StarStyle.spikes then
      let effectPrimitives :=
        starGlowPrims P options (buildFilteredStars P stars observer options viewportSize)
      if effectPrimitives.isEmpty then []
      else [(LayerType.starGlow, ⟨LayerType.starGlow, effectPrimitives, true⟩)]
    else []
  let constLineEntries : List (LayerType × RenderLayer) :=
    if options.showConstellations then
      let constellationLines :=
        constellationLinesOf P observer constellations center scale (buildRingRadius viewportSize)
      if constellationLines.isEmpty then []
      else [(LayerType.constellations, ⟨LayerType.constellations, constellationLines, true⟩)]
    else []
  let cnStep := buildCnStep P observer options constellations viewportSize
  let cnEntries : List (LayerType × RenderLayer) :=
    if options.showConstellationNames then
      if cnStep.1.isEmpty then []
      else [(LayerType.constellationNames, ⟨LayerType.constellationNames, cnStep.1, true⟩)]
    else []
  let snStep := buildSnStep P stars observer options constellations viewportSize
  let snEntries : List (LayerType × RenderLayer) :=
    if options.showStarNames then
      if snStep.1.isEmpty then []
      else [(LayerType.starNames, ⟨LayerType.starNames, snStep.1, true⟩)]
    else []
  let plStep := buildPlStep P stars observer options constellations viewportSize
  let plEntries : List (LayerType × RenderLayer) :=
    if options.showPlanets then
      if plStep.1.isEmpty then []
      else [(LayerType.planets, ⟨LayerType.planets, plStep.1, true⟩)]
    else []
  let horizonEntries : List (LayerType × RenderLayer) :=
    if options.showHorizon then
      [(LayerType.horizon, ⟨LayerType.horizon, horizonPrims P center scale, true⟩)]
    else []
  let gridEntries : List (LayerType × RenderLayer) :=
    if options.showGrid then
      [(LayerType.grid, ⟨LayerType.grid, gridPrims P observer center scale, true⟩)]
    else []
  let cdStep := buildCdStep P stars observer options constellations viewportSize
  let cdEntries : List (LayerType × RenderLayer) :=
    if options.showCardinals then
      [(LayerType.cardinals, ⟨LayerType.cardinals, cdStep.1, true⟩)]
    else []
  let drStep := buildDrStep P stars observer options constellations viewportSize
  let drEntries : List (LayerType × RenderLayer) :=
    if options.showDegreeRing then
      [(LayerType.degreeRing, ⟨LayerType.degreeRing, drStep.1, true⟩)]
    else []
  let metaPrims := metadataPrims observer options center viewportSize
  let metaEntries : List (LayerType × RenderLayer) :=
    if metaPrims.isEmpty then []
    else [(LayerType.metadata, ⟨LayerType.metadata, metaPrims, true⟩)]
  ⟨topoEntries ++ starEntries ++ glowEntries ++ constLineEntries ++ cnEntries ++
      snEntries ++ plEntries ++ horizonEntries ++ gridEntries ++ cdEntries ++
      drEntries ++ metaEntries,
    ⟨viewportSize, viewportSize, center, center, scale⟩,
    ⟨stars.length, projectedStars.length, observer.date, formatLocation observer⟩⟩

/- ### Real-valued projection model (azimuthal.ts, primitives.ts) -/

/-- Projection configuration (source `ProjectionConfig`). -/
structure ProjectionConfig where
  centerAltitude : ℝ
  maxRadius : ℝ
  northUp : Bool
  eastRight : Bool

/-- Source `DEFAULT_PROJECTION_CONFIG`. -/
def DEFAULT_PROJECTION_CONFIG : ProjectionConfig :=
  ⟨90, 1, true, true⟩

/-- A real-valued plane point (output of the projection model). -/
structure Point2R where
  x : ℝ
  y : ℝ

/-- JavaScript `Math.atan2 y x`: the argument of the complex number
`x + y*i`, in `(-PI, PI]`. The reals have no negative zero, so the
signed-zero cases of `Math.atan2` are not all representable: here
`atan2 0 0 = 0`, which models `Math.atan2(+0, +0) = +0` but not
`Math.atan2(+0, -0) = PI`. Theorems about degenerate (origin) inputs
are therefore stated only where the JavaScript second argument is `+0`,
so that the model and the code agree. -/
noncomputable def atan2 (y x : ℝ) : ℝ :=
  Complex.arg (x + y * Complex.I)

/-- Source `projectAzimuthalEquidistant` over the reals: radial distance
linear in angular distance from the centre altitude, azimuth converted
to radians with the configured mirror and flip. -/
noncomputable def projectAzimuthalEquidistant (altitude azimuth : ℝ)
    (config : ProjectionConfig) : Point2R :=
  let angularDistance := config.centerAltitude - altitude
  let r := angularDistance / 90 * config.maxRadius
  let azRad0 := azimuth * Real.pi / 180
  let azRad := if config.eastRight then azRad0 else -azRad0
  let x := r * Real.sin azRad
  let y := if config.northUp then -(r * Real.cos azRad) else r * Real.cos azRad
  ⟨x, y⟩

/-- Source `inverseAzimuthalEquidistant` over the reals. -/
noncomputable def inverseAzimuthalEquidistant (point : Point2R)
    (config : ProjectionConfig) : ℝ × ℝ :=
  let r := Real.sqrt (point.x * point.x + point.y * point.y)
  let angularDistance := r / config.maxRadius * 90
  let altitude := config.centerAltitude - angularDistance
  let azRad0 := if config.northUp then atan2 point.x (-point.y) else atan2 point.x point.y
  let azRad := if config.eastRight then azRad0 else -azRad0
  let azimuth := azRad * 180 / Real.pi
  (altitude, if azimuth < 0 then azimuth + 360 else azimuth)

/-- Source `magnitudeToRadius` over the reals. -/
noncomputable def magnitudeToRadius (magnitude minRadius maxRadius magnitudeLimit : ℝ) : ℝ :=
  let minMag : ℝ := -1.5
  let magRange := magnitudeLimit - minMag
  let normalized := (magnitude - minMag) / magRange
  let clamped := max 0 (min 1 normalized)
  let sizeFactor := Real.sqrt (1 - clamped)
  minRadius + sizeFactor * (maxRadius - minRadius)

/- ### Predicates used in the claim statements -/

/-- Whether a primitive is a text primitive. -/
def isTextPrim : RenderPrimitive → Bool
  | RenderPrimitive.text _ _ _ _ => true
  | _ => false

/-- The text primitives of a primitive list. -/
def textsOf (prims : List RenderPrimitive) : List RenderPrimitive :=
  prims.filter isTextPrim

/-- The collision-detector bounding box of a text primitive, at the font
size its placement phase used and the builder padding 8 (meaningless
default for non-text primitives, which the statements never apply it to). -/
def boxOfPrim (fontSize : ℚ) : RenderPrimitive → BoundingBox
  | RenderPrimitive.text pos v anc _ => estimateBoundingBox 8 pos.x pos.y v anc fontSize
  | _ => ⟨0, 0, 0, 0⟩

/-- No two text primitives of the list have intersecting estimated
bounding boxes at the given font size. -/
def PairwiseNonOverlapping (fontSize : ℚ) (prims : List RenderPrimitive) : Prop :=
  List.Pairwise (fun a b => intersectsB (boxOfPrim fontSize a) (boxOfPrim fontSize b) = false)
    (textsOf prims)

/- ### Concrete instances for witnesses and counterexamples -/

/-- Rational shadow of the default-configuration projection at the
concrete inputs the concrete theorems use: the zenith projects to the
origin, and altitude −5 at the four cardinal azimuths projects to the
four points at radius 19/18 (bridging lemmas below check these against
the real-valued `projectAzimuthalEquidistant`). -/
def qprojStd (alt az : ℚ) : Point2Q :=
  if alt = -5 then
    if az = 0 then ⟨0, -(19/18)⟩
    else if az = 90 then ⟨19/18, 0⟩
    else if az = 180 then ⟨0, 19/18⟩
    else if az = 270 then ⟨-(19/18), 0⟩
    else ⟨0, 0⟩
  else ⟨0, 0⟩

/-- Concrete providers: every queried object sits at the zenith, the
planet provider always throws, and the projection is `qprojStd`. -/
def qProviders : Providers :=
  ⟨fun _ _ _ => ⟨90, 0⟩, fun _ _ => Except.error (), qprojStd,
    fun _ => 0, fun _ => 0, fun _ => 0⟩

/-- Concrete providers whose planet provider always succeeds with an
above-horizon position. -/
def okPlanetProviders : Providers :=
  ⟨fun _ _ _ => ⟨90, 0⟩, fun _ _ => Except.ok ⟨45, 90⟩, qprojStd,
    fun _ => 0, fun _ => 0, fun _ => 0⟩

/-- Options with every optional step disabled. -/
def offOptions : RenderOptions :=
  ⟨6, 1, 3, StarStyle.dots, false, false, false, false, false, false, false, false,
    false, false, false⟩

/-- Options with only the cardinal markers enabled. -/
def cardinalOptions : RenderOptions :=
  ⟨6, 1, 3, StarStyle.dots, false, false, false, false, false, false, true, false,
    false, false, false⟩

/-- Options with cardinal markers and constellation names enabled. -/
def cardinalAndNamesOptions : RenderOptions :=
  ⟨6, 1, 3, StarStyle.dots, false, true, false, false, false, false, true, false,
    false, false, false⟩

/-- A syntactically valid observer. -/
def stdObserver : Observer :=
  ⟨51, 0, 0, ⟨some 0, "2024-01-01T00:00:00.000Z"⟩⟩

/-- An observer whose latitude is far outside the valid range. -/
def badObserver : Observer :=
  ⟨200, 0, 0, ⟨some 0, "2024-01-01T00:00:00.000Z"⟩⟩

/-- A one-polyline test constellation with two vertices. -/
def fakeConstellation : Constellation :=
  ⟨"FAKE", [[⟨0, 0⟩, ⟨1, 0⟩]]⟩

/-- A bright named test star at the zenith. -/
def testStar : CatalogStar :=
  ⟨1, 0, 0, 1, some ("Sirius")⟩

/- ### Theorems -/

/-- The squared-distance test used in the embedding agrees with the
source comparison `Math.sqrt(dx*dx + dy*dy) < r` whenever `0 ≤ r`. -/
theorem distLTb_iff_sqrt (dx dy r : ℚ) (hr : 0 ≤ r) :
    distLTb dx dy r = true ↔ Real.sqrt ((dx : ℝ) * dx + (dy : ℝ) * dy) < (r : ℝ) := by
  unfold distLTb
  rw [decide_eq_true_eq]
  rcases eq_or_lt_of_le hr with h0 | h0
  · constructor
    · intro h
      exfalso
      nlinarith [mul_self_nonneg dx, mul_self_nonneg dy]
    · intro h
      exfalso
      have : (0 : ℝ) ≤ Real.sqrt ((dx : ℝ) * dx + (dy : ℝ) * dy) := Real.sqrt_nonneg _
      rw [← h0] at h
      push_cast at h
      linarith
  · have hr' : (0 : ℝ) < (r : ℝ) := by exact_mod_cast h0
    rw [show ((dx : ℝ) * dx + (dy : ℝ) * dy) = ((dx * dx + dy * dy : ℚ) : ℝ) by push_cast; ring]
    rw [Real.sqrt_lt' hr']
    rw [show ((r : ℝ) ^ 2) = ((r * r : ℚ) : ℝ) by push_cast; ring]
    exact Rat.cast_lt.symm

/-- C6 counterexample: with `minRadius = 2 > maxRadius = 1` (the claim
quantifies over every fixed min/max radius) the radius strictly
increases from magnitude −1.5 to magnitude 6, so `magnitudeToRadius` is
not non-increasing in magnitude for every fixed parameter choice. -/
theorem c6_magnitude_radius_counterexample :
    magnitudeToRadius (-1.5) 2 1 6 < magnitudeToRadius 6 2 1 6 := by
  unfold magnitudeToRadius
  norm_num [Real.sqrt_one, Real.sqrt_zero]

/-- C6 amended: when additionally `minRadius ≤ maxRadius` and the
magnitude limit exceeds the bright reference magnitude −1.5,
`magnitudeToRadius` is non-increasing in magnitude, equals `maxRadius`
at magnitude −1.5, and equals `minRadius` at the magnitude limit. -/
theorem c6_magnitude_radius_amended (minRadius maxRadius magnitudeLimit : ℝ)
    (hr : minRadius ≤ maxRadius) (hl : -1.5 < magnitudeLimit) :
    (∀ m1 m2 : ℝ, m1 ≤ m2 →
      magnitudeToRadius m2 minRadius maxRadius magnitudeLimit ≤
        magnitudeToRadius m1 minRadius maxRadius magnitudeLimit) ∧
    magnitudeToRadius (-1.5) minRadius maxRadius magnitudeLimit = maxRadius ∧
    magnitudeToRadius magnitudeLimit minRadius maxRadius magnitudeLimit = minRadius := by
  have hrange : (0 : ℝ) < magnitudeLimit - (-1.5) := by linarith
  refine ⟨?_, ?_, ?_⟩
  · intro m1 m2 h12
    unfold magnitudeToRadius
    have h1 : (m1 - (-1.5)) / (magnitudeLimit - (-1.5)) ≤
        (m2 - (-1.5)) / (magnitudeLimit - (-1.5)) :=
      (div_le_div_right hrange).mpr (by linarith)
    have h2 : max 0 (min 1 ((m1 - (-1.5)) / (magnitudeLimit - (-1.5)))) ≤
        max 0 (min 1 ((m2 - (-1.5)) / (magnitudeLimit - (-1.5)))) :=
      max_le_max le_rfl (min_le_min le_rfl h1)
    have h3 : Real.sqrt (1 - max 0 (min 1 ((m2 - (-1.5)) / (magnitudeLimit - (-1.5))))) ≤
        Real.sqrt (1 - max 0 (min 1 ((m1 - (-1.5)) / (magnitudeLimit - (-1.5))))) :=
      Real.sqrt_le_sqrt (by linarith)
    have h4 : (0 : ℝ) ≤ maxRadius - minRadius := by linarith
    nlinarith [h3, h4, Real.sqrt_nonneg (1 - max 0 (min 1 ((m2 - (-1.5)) / (magnitudeLimit - (-1.5)))))]
  · show minRadius + Real.sqrt (1 - max 0 (min 1 ((-1.5 - -1.5) / (magnitudeLimit - -1.5)))) *
        (maxRadius - minRadius) = maxRadius
    rw [show (-1.5 - -1.5 : ℝ) = 0 by ring, zero_div]
    rw [show max 0 (min 1 (0 : ℝ)) = 0 by norm_num]
    rw [show (1 - 0 : ℝ) = 1 by ring, Real.sqrt_one]
    ring
  · show minRadius + Real.sqrt (1 - max 0 (min 1 ((magnitudeLimit - -1.5) / (magnitudeLimit - -1.5)))) *
        (maxRadius - minRadius) = minRadius
    rw [div_self (by linarith : magnitudeLimit - -1.5 ≠ 0)]
    rw [show max 0 (min 1 (1 : ℝ)) = 1 by norm_num]
    rw [show (1 - 1 : ℝ) = 0 by ring, Real.sqrt_zero]
    ring

/-- C6 amended witness at `minRadius = 1`, `maxRadius = 2`, limit 6,
magnitudes 0 ≤ 1. -/
theorem c6_magnitude_radius_amended_witness :
    ((1 : ℝ) ≤ 2 ∧ (-1.5 : ℝ) < 6 ∧ (0 : ℝ) ≤ 1) ∧
      magnitudeToRadius 1 1 2 6 ≤ magnitudeToRadius 0 1 2 6 ∧
      magnitudeToRadius (-1.5) 1 2 6 = 2 ∧
      magnitudeToRadius 6 1 2 6 = 1 :=
  ⟨⟨by norm_num, by norm_num, by norm_num⟩,
    (c6_magnitude_radius_amended 1 2 6 (by norm_num) (by norm_num)).1 0 1 (by norm_num),
    (c6_magnitude_radius_amended 1 2 6 (by norm_num) (by norm_num)).2.1,
    (c6_magnitude_radius_amended 1 2 6 (by norm_num) (by norm_num)).2.2⟩

/-- The default-configuration projection, x component. -/
theorem project_default_x (alt az : ℝ) :
    (projectAzimuthalEquidistant alt az DEFAULT_PROJECTION_CONFIG).x =
      (90 - alt) / 90 * 1 * Real.sin (az * Real.pi / 180) := rfl

/-- The default-configuration projection, y component. -/
theorem project_default_y (alt az : ℝ) :
    (projectAzimuthalEquidistant alt az DEFAULT_PROJECTION_CONFIG).y =
      -((90 - alt) / 90 * 1 * Real.cos (az * Real.pi / 180)) := rfl

/-- The default-configuration inverse projection, unfolded. -/
theorem inverse_default (p : Point2R) :
    inverseAzimuthalEquidistant p DEFAULT_PROJECTION_CONFIG =
      (90 - Real.sqrt (p.x * p.x + p.y * p.y) / 1 * 90,
        if atan2 p.x (-p.y) * 180 / Real.pi < 0 then
          atan2 p.x (-p.y) * 180 / Real.pi + 360
        else atan2 p.x (-p.y) * 180 / Real.pi) := rfl

/-- Exact round trip of the default projection away from the zenith:
for altitude in [0, 90) and azimuth in [0, 360), the inverse projection
recovers the input exactly. -/
theorem roundtrip_exact (alt az : ℝ) (h0 : 0 ≤ alt) (h1 : alt < 90)
    (h2 : 0 ≤ az) (h3 : az < 360) :
    inverseAzimuthalEquidistant (projectAzimuthalEquidistant alt az DEFAULT_PROJECTION_CONFIG)
      DEFAULT_PROJECTION_CONFIG = (alt, az) := by
  have hπ := Real.pi_pos
  set θ := az * Real.pi / 180 with hθdef
  set r : ℝ := (90 - alt) / 90 * 1 with hrdef
  have hr : 0 < r := by rw [hrdef]; nlinarith
  set p := projectAzimuthalEquidistant alt az DEFAULT_PROJECTION_CONFIG with hpdef
  have hx : p.x = r * Real.sin θ := project_default_x alt az
  have hy : p.y = -(r * Real.cos θ) := project_default_y alt az
  have hxy : p.x * p.x + p.y * p.y = r ^ 2 := by
    calc p.x * p.x + p.y * p.y = r ^ 2 * (Real.sin θ ^ 2 + Real.cos θ ^ 2) := by
          rw [hx, hy]; ring
    _ = r ^ 2 := by rw [Real.sin_sq_add_cos_sq, mul_one]
  have hsqrt : Real.sqrt (p.x * p.x + p.y * p.y) = r := by
    rw [hxy]; exact Real.sqrt_sq hr.le
  have harg : atan2 p.x (-p.y) =
      Complex.arg ((r : ℂ) * ((Real.cos θ : ℂ) + (Real.sin θ : ℂ) * Complex.I)) := by
    unfold atan2
    congr 1
    rw [hx, hy]
    push_cast
    ring
  have harg2 : atan2 p.x (-p.y) =
      Complex.arg ((Real.cos θ : ℂ) + (Real.sin θ : ℂ) * Complex.I) := by
    rw [harg, Complex.arg_real_mul _ hr]
  rw [inverse_default, Prod.mk.injEq]
  constructor
  · rw [hsqrt, hrdef]; ring
  · rcases le_or_lt az 180 with hle | hgt
    · have hmem : θ ∈ Set.Ioc (-Real.pi) Real.pi := by
        constructor
        · rw [hθdef]; nlinarith
        · rw [hθdef]; nlinarith
      have harg3 : atan2 p.x (-p.y) = θ := by
        rw [harg2, Complex.ofReal_cos, Complex.ofReal_sin]
        exact Complex.arg_cos_add_sin_mul_I hmem
      have hazval : atan2 p.x (-p.y) * 180 / Real.pi = az := by
        rw [harg3, hθdef]; field_simp
      rw [hazval, if_neg (not_lt.mpr h2)]
    · have hmem : θ - 2 * Real.pi ∈ Set.Ioc (-Real.pi) Real.pi := by
        constructor
        · rw [hθdef]; nlinarith
        · rw [hθdef]; nlinarith
      have harg3 : atan2 p.x (-p.y) = θ - 2 * Real.pi := by
        rw [harg2, ← Real.cos_sub_two_pi θ, ← Real.sin_sub_two_pi θ,
          Complex.ofReal_cos, Complex.ofReal_sin]
        exact Complex.arg_cos_add_sin_mul_I hmem
      have hazval : atan2 p.x (-p.y) * 180 / Real.pi = az - 360 := by
        rw [harg3, hθdef]; field_simp; ring
      rw [hazval, if_pos (by linarith)]
      ring

/-- C2 amended: for altitude in [0, 90) and azimuth in [0, 360), the
inverse projection applied to the projection reproduces altitude and
azimuth within 1e-6 (in fact exactly); at the zenith (altitude 90) the
azimuth is not in general recoverable, see the counterexample. -/
theorem c2_roundtrip_amended (alt az : ℝ) (h0 : 0 ≤ alt) (h1 : alt < 90)
    (h2 : 0 ≤ az) (h3 : az < 360) :
    |(inverseAzimuthalEquidistant
        (projectAzimuthalEquidistant alt az DEFAULT_PROJECTION_CONFIG)
        DEFAULT_PROJECTION_CONFIG).1 - alt| ≤ 1 / 1000000 ∧
    |(inverseAzimuthalEquidistant
        (projectAzimuthalEquidistant alt az DEFAULT_PROJECTION_CONFIG)
        DEFAULT_PROJECTION_CONFIG).2 - az| ≤ 1 / 1000000 := by
  rw [roundtrip_exact alt az h0 h1 h2 h3]
  norm_num

/-- C2 amended witness at altitude 0, azimuth 90. -/
theorem c2_roundtrip_amended_witness :
    ((0 : ℝ) ≤ 0 ∧ (0 : ℝ) < 90 ∧ (0 : ℝ) ≤ 90 ∧ (90 : ℝ) < 360) ∧
    |(inverseAzimuthalEquidistant
        (projectAzimuthalEquidistant 0 90 DEFAULT_PROJECTION_CONFIG)
        DEFAULT_PROJECTION_CONFIG).1 - 0| ≤ 1 / 1000000 ∧
    |(inverseAzimuthalEquidistant
        (projectAzimuthalEquidistant 0 90 DEFAULT_PROJECTION_CONFIG)
        DEFAULT_PROJECTION_CONFIG).2 - 90| ≤ 1 / 1000000 :=
  ⟨⟨le_refl 0, by norm_num, by norm_num, by norm_num⟩,
    c2_roundtrip_amended 0 90 (le_refl 0) (by norm_num) (by norm_num) (by norm_num)⟩

/-- Any zenith point projects to the origin under the default
configuration. -/
theorem project_zenith (az : ℝ) :
    projectAzimuthalEquidistant 90 az DEFAULT_PROJECTION_CONFIG = ⟨0, 0⟩ := by
  have hx := project_default_x 90 az
  have hy := project_default_y 90 az
  have hx0 : (projectAzimuthalEquidistant 90 az DEFAULT_PROJECTION_CONFIG).x = 0 := by
    rw [hx]; norm_num
  have hy0 : (projectAzimuthalEquidistant 90 az DEFAULT_PROJECTION_CONFIG).y = 0 := by
    rw [hy]; norm_num
  cases hp : projectAzimuthalEquidistant 90 az DEFAULT_PROJECTION_CONFIG with
  | mk px py =>
    rw [hp] at hx0 hy0
    simp only at hx0 hy0
    rw [hx0, hy0]

/-- The inverse projection maps the origin to altitude 90, azimuth 0. -/
theorem inverse_origin :
    inverseAzimuthalEquidistant ⟨0, 0⟩ DEFAULT_PROJECTION_CONFIG = (90, 0) := by
  rw [inverse_default, Prod.mk.injEq]
  have hz : atan2 (0 : ℝ) (-(0 : ℝ)) = 0 := by
    unfold atan2
    rw [show ((-(0 : ℝ) : ℝ) : ℂ) + ((0 : ℝ) : ℂ) * Complex.I = 0 by push_cast; ring]
    exact Complex.arg_zero
  constructor
  · simp [Real.sqrt_zero]
  · rw [hz]
    norm_num

/-- C2 counterexample: at the zenith the projection collapses every
azimuth to the origin, so the round trip at altitude 90, azimuth 90
returns azimuth 0, off by 90 degrees — far beyond the 1e-6 tolerance
the claim demands for every altitude in [0, 90]. At this input the
model is faithful to the code: in JavaScript `project(90, 90)` yields
`x = +0`, `y = -0`, and the inverse computes `Math.atan2(+0, +0) = +0`,
in agreement with `atan2 0 0 = 0` here. (Azimuth 180 is deliberately
not used: there the code hits `Math.atan2(+0, -0) = PI` and actually
recovers azimuth 180, a signed-zero branch the real model lacks.) -/
theorem c2_roundtrip_counterexample :
    ¬(|(inverseAzimuthalEquidistant
        (projectAzimuthalEquidistant 90 90 DEFAULT_PROJECTION_CONFIG)
        DEFAULT_PROJECTION_CONFIG).2 - 90| ≤ 1 / 1000000) := by
  rw [project_zenith, inverse_origin]
  norm_num

/-- Membership in a flag-gated singleton entry list. -/
theorem mem_flag_entry {c : Prop} [Decidable c] {t t' : LayerType} {layer L : RenderLayer}
    (h : (t', L) ∈ (if c then [(t, layer)] else ([] : List (LayerType × RenderLayer)))) :
    c ∧ t' = t ∧ L = layer := by
  split_ifs at h with hc
  · simp only [List.mem_singleton, Prod.mk.injEq] at h
    exact ⟨hc, h.1, h.2⟩
  · simp at h

/-- Membership in a flag-gated, nonempty-gated singleton entry list. -/
theorem mem_flag_nonempty_entry {c : Prop} [Decidable c] {prims : List RenderPrimitive}
    {t t' : LayerType} {L : RenderLayer}
    (h : (t', L) ∈ (if c then (if prims.isEmpty then ([] : List (LayerType × RenderLayer))
        else [(t, ⟨t, prims, true⟩)]) else [])) :
    c ∧ prims ≠ [] ∧ t' = t ∧ L = ⟨t, prims, true⟩ := by
  split_ifs at h with hc he
  · simp at h
  · simp only [List.mem_singleton, Prod.mk.injEq] at h
    refine ⟨hc, ?_, h.1, h.2⟩
    intro hnil
    rw [hnil] at he
    simp at he
  · simp at h

/-- Every layer of a built geometry is one of the twelve entries the
builder can insert, with the exact primitives the corresponding step
computed and the gating conditions that held. -/
theorem build_layers_cases (P : Providers) (stars : List CatalogStar) (observer : Observer)
    (options : RenderOptions) (cs : List Constellation) (v : ℚ) (t : LayerType)
    (L : RenderLayer)
    (h : (t, L) ∈ (buildStarMapGeometry P stars observer options cs v).layers) :
    (t = LayerType.topoContours ∧ options.showTopoContours = true ∧
      L = ⟨LayerType.topoContours, topoPrims (buildCenter v) (buildScale v), true⟩) ∨
    (t = LayerType.stars ∧
      L = ⟨LayerType.stars, (buildFilteredStars P stars observer options v).map fun star =>
        createCircle star.x star.y star.radius (some star.hip), true⟩) ∨
    (t = LayerType.starGlow ∧
      starGlowPrims P options (buildFilteredStars P stars observer options v) ≠ [] ∧
      L = ⟨LayerType.starGlow,
        starGlowPrims P options (buildFilteredStars P stars observer options v), true⟩) ∨
    (t = LayerType.constellations ∧ options.showConstellations = true ∧
      constellationLinesOf P observer cs (buildCenter v) (buildScale v)
        (buildRingRadius v) ≠ [] ∧
      L = ⟨LayerType.constellations, constellationLinesOf P observer cs (buildCenter v)
        (buildScale v) (buildRingRadius v), true⟩) ∨
    (t = LayerType.constellationNames ∧ options.showConstellationNames = true ∧
      (buildCnStep P observer options cs v).1 ≠ [] ∧
      L = ⟨LayerType.constellationNames, (buildCnStep P observer options cs v).1, true⟩) ∨
    (t = LayerType.starNames ∧ options.showStarNames = true ∧
      (buildSnStep P stars observer options cs v).1 ≠ [] ∧
      L = ⟨LayerType.starNames, (buildSnStep P stars observer options cs v).1, true⟩) ∨
    (t = LayerType.planets ∧ options.showPlanets = true ∧
      (buildPlStep P stars observer options cs v).1 ≠ [] ∧
      L = ⟨LayerType.planets, (buildPlStep P stars observer options cs v).1, true⟩) ∨
    (t = LayerType.horizon ∧ options.showHorizon = true ∧
      L = ⟨LayerType.horizon, horizonPrims P (buildCenter v) (buildScale v), true⟩) ∨
    (t = LayerType.grid ∧ options.showGrid = true ∧
      L = ⟨LayerType.grid, gridPrims P observer (buildCenter v) (buildScale v), true⟩) ∨
    (t = LayerType.cardinals ∧ options.showCardinals = true ∧
      L = ⟨LayerType.cardinals, (buildCdStep P stars observer options cs v).1, true⟩) ∨
    (t = LayerType.degreeRing ∧ options.showDegreeRing = true ∧
      L = ⟨LayerType.degreeRing, (buildDrStep P stars observer options cs v).1, true⟩) ∨
    (t = LayerType.metadata ∧
      metadataPrims observer options (buildCenter v) v ≠ [] ∧
      L = ⟨LayerType.metadata, metadataPrims observer options (buildCenter v) v, true⟩) := by
  simp only [buildStarMapGeometry, List.mem_append] at h
  rcases h with ((((((((((ht | hs) | hg) | hc) | hcn) | hsn) | hp) | hh) | hgr) | hcd) | hdr) | hm
  · exact Or.inl (by
      obtain ⟨h1, h2, h3⟩ := mem_flag_entry ht
      exact ⟨h2, by simpa using h1, h3⟩)
  · refine Or.inr (Or.inl ?_)
    simp only [List.mem_singleton, Prod.mk.injEq] at hs
    exact ⟨hs.1, hs.2⟩
  · refine Or.inr (Or.inr (Or.inl ?_))
    obtain ⟨h1, h2, h3, h4⟩ := mem_flag_nonempty_entry hg
    exact ⟨h3, h2, h4⟩
  · refine Or.inr (Or.inr (Or.inr (Or.inl ?_)))
    obtain ⟨h1, h2, h3, h4⟩ := mem_flag_nonempty_entry hc
    exact ⟨h3, by simpa using h1, h2, h4⟩
  · refine Or.inr (Or.inr (Or.inr (Or.inr (Or.inl ?_))))
    obtain ⟨h1, h2, h3, h4⟩ := mem_flag_nonempty_entry hcn
    exact ⟨h3, by simpa using h1, h2, h4⟩
  · refine Or.inr (Or.inr (Or.inr (Or.inr (Or.inr (Or.inl ?_)))))
    obtain ⟨h1, h2, h3, h4⟩ := mem_flag_nonempty_entry hsn
    exact ⟨h3, by simpa using h1, h2, h4⟩
  · refine Or.inr (Or.inr (Or.inr (Or.inr (Or.inr (Or.inr (Or.inl ?_))))))
    obtain ⟨h1, h2, h3, h4⟩ := mem_flag_nonempty_entry hp
    exact ⟨h3, by simpa using h1, h2, h4⟩
  · refine Or.inr (Or.inr (Or.inr (Or.inr (Or.inr (Or.inr (Or.inr (Or.inl ?_)))))))
    obtain ⟨h1, h2, h3⟩ := mem_flag_entry hh
    exact ⟨h2, by simpa using h1, h3⟩
  · refine Or.inr (Or.inr (Or.inr (Or.inr (Or.inr (Or.inr (Or.inr (Or.inr (Or.inl ?_))))))))
    obtain ⟨h1, h2, h3⟩ := mem_flag_entry hgr
    exact ⟨h2, by simpa using h1, h3⟩
  · refine Or.inr (Or.inr (Or.inr (Or.inr (Or.inr (Or.inr (Or.inr (Or.inr (Or.inr
      (Or.inl ?_)))))))))
    obtain ⟨h1, h2, h3⟩ := mem_flag_entry hcd
    exact ⟨h2, by simpa using h1, h3⟩
  · refine Or.inr (Or.inr (Or.inr (Or.inr (Or.inr (Or.inr (Or.inr (Or.inr (Or.inr (Or.inr
      (Or.inl ?_))))))))))
    obtain ⟨h1, h2, h3⟩ := mem_flag_entry hdr
    exact ⟨h2, by simpa using h1, h3⟩
  · refine Or.inr (Or.inr (Or.inr (Or.inr (Or.inr (Or.inr (Or.inr (Or.inr (Or.inr (Or.inr
      (Or.inr ?_))))))))))
    rw [show (if (metadataPrims observer options (buildCenter v) v).isEmpty then
        ([] : List (LayerType × RenderLayer))
      else [(LayerType.metadata,
        ⟨LayerType.metadata, metadataPrims observer options (buildCenter v) v, true⟩)]) =
      (if True then (if (metadataPrims observer options (buildCenter v) v).isEmpty then
        ([] : List (LayerType × RenderLayer))
      else [(LayerType.metadata,
        ⟨LayerType.metadata, metadataPrims observer options (buildCenter v) v, true⟩)]) else [])
      by simp] at hm
    obtain ⟨h1, h2, h3, h4⟩ := mem_flag_nonempty_entry hm
    exact ⟨h3, h2, h4⟩

/-- The topographic-contour step always emits five circles. -/
theorem topoPrims_ne_nil (center scale : ℚ) : topoPrims center scale ≠ [] := by
  simp [topoPrims]

/-- The horizon step always emits one path. -/
theorem horizonPrims_ne_nil (P : Providers) (center scale : ℚ) :
    horizonPrims P center scale ≠ [] := by
  simp [horizonPrims]

/-- The grid step always emits primitives: the pole cross in the
equatorial branch, the concentric circles in the fallback branch. -/
theorem gridPrims_ne_nil (P : Providers) (observer : Observer) (center scale : ℚ) :
    gridPrims P observer center scale ≠ [] := by
  by_cases h : 0 < (P.raDecToAltAz 0 90 observer).altitude
  · simp [gridPrims, h]
  · simp [gridPrims, h]

/-- The cardinal phase always emits the four markers. -/
theorem cardinalsPhase_fst_ne_nil (P : Providers) (center scale : ℚ)
    (st : List BoundingBox) : (cardinalsPhase P center scale st).1 ≠ [] := by
  simp [cardinalsPhase]

/-- The degree-ring phase always emits primitives (the bezel circles at
least). -/
theorem degreeRingPhase_fst_ne_nil (P : Providers) (center scale : ℚ)
    (st : List BoundingBox) : (degreeRingPhase P center scale st).1 ≠ [] := by
  simp only [degreeRingPhase]
  simp

/-- C4 counterexample: building from an empty catalog with every
optional step disabled yields a geometry whose only layer is the stars
layer with an empty primitives list — a build step that produced zero
primitives still added a layer. -/
theorem c4_empty_stars_layer_counterexample :
    (buildStarMapGeometry qProviders [] stdObserver offOptions [] 1).layers =
      [(LayerType.stars, ⟨LayerType.stars, [], true⟩)] := by
  decide

/-- C4 amended: every layer of a built geometry other than the stars
layer has a nonempty primitives list, but the stars layer is always
inserted, even when it is empty. -/
theorem c4_layers_nonempty_amended (P : Providers) (stars : List CatalogStar)
    (observer : Observer) (options : RenderOptions) (cs : List Constellation) (v : ℚ) :
    (∃ L, (LayerType.stars, L) ∈ (buildStarMapGeometry P stars observer options cs v).layers) ∧
    ∀ t L, (t, L) ∈ (buildStarMapGeometry P stars observer options cs v).layers →
      t ≠ LayerType.stars → L.primitives ≠ [] := by
  constructor
  · refine ⟨⟨LayerType.stars, (buildFilteredStars P stars observer options v).map fun star =>
      createCircle star.x star.y star.radius (some star.hip), true⟩, ?_⟩
    simp [buildStarMapGeometry]
  · intro t L hmem hne
    rcases build_layers_cases P stars observer options cs v t L hmem with
      h | h | h | h | h | h | h | h | h | h | h | h
    · rw [h.2.2]; exact topoPrims_ne_nil _ _
    · exact absurd h.1 hne
    · rw [h.2.2]; exact h.2.1
    · rw [h.2.2.2]; exact h.2.2.1
    · rw [h.2.2.2]; exact h.2.2.1
    · rw [h.2.2.2]; exact h.2.2.1
    · rw [h.2.2.2]; exact h.2.2.1
    · rw [h.2.2]; exact horizonPrims_ne_nil _ _ _
    · rw [h.2.2]; exact gridPrims_ne_nil _ _ _ _
    · rw [h.2.2]
      show (buildCdStep P stars observer options cs v).1 ≠ []
      unfold buildCdStep
      rw [if_pos (by simpa using h.2.1)]
      exact cardinalsPhase_fst_ne_nil _ _ _ _
    · rw [h.2.2]
      show (buildDrStep P stars observer options cs v).1 ≠ []
      unfold buildDrStep
      rw [if_pos (by simpa using h.2.1)]
      exact degreeRingPhase_fst_ne_nil _ _ _ _
    · rw [h.2.2]; exact h.2.1

/-- C4 amended witness: a concrete build with cardinals enabled, at a
layer other than stars. -/
theorem c4_layers_nonempty_amended_witness :
    (∃ L, (LayerType.stars, L) ∈
      (buildStarMapGeometry qProviders [] stdObserver cardinalOptions [] 1).layers) ∧
    ∀ L, (LayerType.cardinals, L) ∈
        (buildStarMapGeometry qProviders [] stdObserver cardinalOptions [] 1).layers →
      L.primitives ≠ [] :=
  ⟨(c4_layers_nonempty_amended qProviders [] stdObserver cardinalOptions [] 1).1,
    fun L hm => (c4_layers_nonempty_amended qProviders [] stdObserver cardinalOptions [] 1).2
      LayerType.cardinals L hm (by decide)⟩

/-- C3 counterexample: an observer with latitude 200 fails
`validateObserver`, yet `buildStarMapGeometry` neither rejects nor
clamps: it returns a complete geometry whose location metadata still
carries the out-of-range latitude. -/
theorem c3_no_validation_counterexample :
    (validateObserver badObserver).valid = false ∧
    (buildStarMapGeometry qProviders [] badObserver offOptions [] 1).layers =
      [(LayerType.stars, ⟨LayerType.stars, [], true⟩)] ∧
    (buildStarMapGeometry qProviders [] badObserver offOptions [] 1).metadata.location =
      "200.00°N, 0.00°E" := by
  refine ⟨by decide, by decide, ?_⟩
  have hfix200 : fix2 (200 : ℚ) = "200.00" := by
    have hfl : Rat.floor ((200 : ℚ) * 100 + 1 / 2) = 20000 := by
      norm_num [Rat.floor_def']
    simp only [fix2, hfl]
    decide
  have hfix0 : fix2 (0 : ℚ) = "0.00" := by
    have hfl : Rat.floor ((0 : ℚ) * 100 + 1 / 2) = 0 := by
      norm_num [Rat.floor_def']
    simp only [fix2, hfl]
    decide
  show formatLocation badObserver = "200.00°N, 0.00°E"
  have h1 : |(badObserver.latitude)| = (200 : ℚ) := by norm_num [badObserver]
  have h2 : |(badObserver.longitude)| = (0 : ℚ) := by norm_num [badObserver]
  rw [formatLocation, h1, h2, hfix200, hfix0]
  norm_num [badObserver]
  decide

/-- C3 amended: the range checks exist only in the separate
`validateObserver` helper, which flags exactly the out-of-range
observers; `buildStarMapGeometry` does not invoke it and returns a
complete geometry (full bounds and metadata) for every observer,
including invalid ones, without clamping. -/
theorem c3_no_validation_amended (P : Providers) (stars : List CatalogStar)
    (observer : Observer) (options : RenderOptions) (cs : List Constellation) (v : ℚ) :
    ((validateObserver observer).valid = true ↔
      (-90 ≤ observer.latitude ∧ observer.latitude ≤ 90 ∧
        -180 ≤ observer.longitude ∧ observer.longitude ≤ 180 ∧
        -500 ≤ observer.elevation ∧ observer.elevation ≤ 10000 ∧
        observer.date.time ≠ none)) ∧
    (buildStarMapGeometry P stars observer options cs v).metadata.starCount = stars.length ∧
    (buildStarMapGeometry P stars observer options cs v).metadata.location =
      formatLocation observer ∧
    (buildStarMapGeometry P stars observer options cs v).bounds =
      ⟨v, v, buildCenter v, buildCenter v, buildScale v⟩ := by
  refine ⟨?_, rfl, rfl, rfl⟩
  have hval : (validateObserver observer).valid = true ↔
      (¬(observer.latitude < -90 ∨ 90 < observer.latitude) ∧
        ¬(observer.longitude < -180 ∨ 180 < observer.longitude) ∧
        ¬(observer.elevation < -500 ∨ 10000 < observer.elevation) ∧
        ¬(observer.date.time = none)) := by
    unfold validateObserver
    by_cases h1 : observer.latitude < -90 ∨ 90 < observer.latitude <;>
      by_cases h2 : observer.longitude < -180 ∨ 180 < observer.longitude <;>
        by_cases h3 : observer.elevation < -500 ∨ 10000 < observer.elevation <;>
          by_cases h4 : observer.date.time = none <;>
            simp [h1, h2, h3, h4]
  rw [hval]
  push_neg
  tauto

/-- Every star the projection loop keeps passed both filters: its
magnitude is at most the limit and its computed altitude is positive,
and the recorded fields come from its catalog star and the ephemeris. -/
theorem projectStars_mem (P : Providers) (stars : List CatalogStar) (observer : Observer)
    (options : RenderOptions) (center scale : ℚ) (s : ProjectedStar)
    (hs : s ∈ projectStars P stars observer options center scale) :
    s.magnitude ≤ options.magnitudeLimit ∧ 0 < s.altitude ∧
    ∃ star ∈ stars, s.magnitude = star.mag ∧
      s.altitude = (P.raDecToAltAz star.ra star.dec observer).altitude := by
  simp only [projectStars, List.mem_filterMap] at hs
  obtain ⟨star, hstar, hf⟩ := hs
  split_ifs at hf with h1 h2
  · simp only [Option.some.injEq] at hf
    subst hf
    exact ⟨not_lt.mp h1, not_le.mp h2, star, hstar, rfl, rfl⟩

/-- C5: no star with altitude ≤ 0 or magnitude above the limit survives:
every projected star passed both tests, the stars layer renders exactly
the ring-filtered projected stars, and the visible-star count is the
projected-star count. -/
theorem c5_visibility_filter (P : Providers) (stars : List CatalogStar) (observer : Observer)
    (options : RenderOptions) (cs : List Constellation) (v : ℚ) :
    (∀ s ∈ buildProjectedStars P stars observer options v,
      s.magnitude ≤ options.magnitudeLimit ∧ 0 < s.altitude) ∧
    (∀ s ∈ buildFilteredStars P stars observer options v,
      s.magnitude ≤ options.magnitudeLimit ∧ 0 < s.altitude) ∧
    (buildStarMapGeometry P stars observer options cs v).metadata.visibleStarCount =
      (buildProjectedStars P stars observer options v).length ∧
    (∀ L, (LayerType.stars, L) ∈ (buildStarMapGeometry P stars observer options cs v).layers →
      L.primitives = (buildFilteredStars P stars observer options v).map fun star =>
        createCircle star.x star.y star.radius (some star.hip)) := by
  refine ⟨?_, ?_, rfl, ?_⟩
  · intro s hs
    obtain ⟨h1, h2, _⟩ := projectStars_mem P stars observer options _ _ s hs
    exact ⟨h1, h2⟩
  · intro s hs
    have hs' : s ∈ buildProjectedStars P stars observer options v :=
      List.mem_of_mem_filter hs
    obtain ⟨h1, h2, _⟩ := projectStars_mem P stars observer options _ _ s hs'
    exact ⟨h1, h2⟩
  · intro L hmem
    rcases build_layers_cases P stars observer options cs v LayerType.stars L hmem with
      h | h | h | h | h | h | h | h | h | h | h | h
    · exact absurd h.1 (by decide)
    · rw [h.2]
    · exact absurd h.1 (by decide)
    · exact absurd h.1 (by decide)
    · exact absurd h.1 (by decide)
    · exact absurd h.1 (by decide)
    · exact absurd h.1 (by decide)
    · exact absurd h.1 (by decide)
    · exact absurd h.1 (by decide)
    · exact absurd h.1 (by decide)
    · exact absurd h.1 (by decide)
    · exact absurd h.1 (by decide)

/-- C5 witness: a concrete bright zenith star passes the filters and is
kept with its computed data. -/
theorem c5_visibility_filter_witness :
    (⟨1, 1/2, 1/2, 90, 0, 1, 1, some ("Sirius")⟩ : ProjectedStar) ∈
      buildProjectedStars qProviders [testStar] stdObserver offOptions 1 ∧
    (1 : ℚ) ≤ offOptions.magnitudeLimit ∧ (0 : ℚ) < 90 := by
  have hmem : (⟨1, 1/2, 1/2, 90, 0, 1, 1, some ("Sirius")⟩ : ProjectedStar) ∈
      buildProjectedStars qProviders [testStar] stdObserver offOptions 1 := by
    have : buildProjectedStars qProviders [testStar] stdObserver offOptions 1 =
        [⟨1, 1/2, 1/2, 90, 0, 1, 1, some ("Sirius")⟩] := by
      simp only [buildProjectedStars, projectStars, buildCenter, buildScale, testStar,
        qProviders, offOptions, qprojStd, magnitudeToRadiusQ, List.filterMap]
      norm_num
    rw [this]
    exact List.mem_singleton.mpr rfl
  exact ⟨hmem,
    ((c5_visibility_filter qProviders [testStar] stdObserver offOptions [] 1).1 _ hmem).1,
    ((c5_visibility_filter qProviders [testStar] stdObserver offOptions [] 1).1 _ hmem).2⟩

/-- Every primitive a phase emits is either an unconditional primitive
of one of its items or the text of one of its attempted labels. -/
theorem runPhase_mem {α : Type} (f : α → List RenderPrimitive × Option LabelSpec)
    (items : List α) (st : List BoundingBox) :
    ∀ q ∈ (runPhase f items st).1,
      (∃ a ∈ items, q ∈ (f a).1) ∨
      (∃ a ∈ items, ∃ l, (f a).2 = some l ∧
        q = createText l.x l.y l.text l.anchor Baseline.middle) := by
  induction items generalizing st with
  | nil =>
    intro q hq
    simp [runPhase] at hq
  | cons a rest ih =>
    intro q hq
    rw [runPhase] at hq
    rcases hfa : (f a).2 with _ | l
    · rw [hfa] at hq
      simp only [List.mem_append] at hq
      rcases hq with h | h
      · exact Or.inl ⟨a, List.mem_cons_self a rest, h⟩
      · rcases ih st q h with ⟨b, hb, hq'⟩ | ⟨b, hb, l, hl, hq'⟩
        · exact Or.inl ⟨b, List.mem_cons_of_mem a hb, hq'⟩
        · exact Or.inr ⟨b, List.mem_cons_of_mem a hb, l, hl, hq'⟩
    · rw [hfa] at hq
      dsimp only at hq
      by_cases hok : (tryPlace 8 st l.x l.y l.text l.anchor l.fontSize).1
      · rw [if_pos hok] at hq
        simp only [List.append_assoc, List.mem_append, List.mem_singleton] at hq
        rcases hq with h | h | h
        · exact Or.inl ⟨a, List.mem_cons_self a rest, h⟩
        · exact Or.inr ⟨a, List.mem_cons_self a rest, l, hfa, h⟩
        · rcases ih _ q h with ⟨b, hb, hq'⟩ | ⟨b, hb, l', hl', hq'⟩
          · exact Or.inl ⟨b, List.mem_cons_of_mem a hb, hq'⟩
          · exact Or.inr ⟨b, List.mem_cons_of_mem a hb, l', hl', hq'⟩
      · rw [if_neg hok] at hq
        simp only [List.mem_append] at hq
        rcases hq with h | h
        · exact Or.inl ⟨a, List.mem_cons_self a rest, h⟩
        · rcases ih _ q h with ⟨b, hb, hq'⟩ | ⟨b, hb, l', hl', hq'⟩
          · exact Or.inl ⟨b, List.mem_cons_of_mem a hb, hq'⟩
          · exact Or.inr ⟨b, List.mem_cons_of_mem a hb, l', hl', hq'⟩

/-- Every planet the provider returns has positive altitude. -/
theorem getPlanetPositions_altitude (P : Providers) (observer : Observer) :
    ∀ p ∈ getPlanetPositions P observer, 0 < p.altitude := by
  intro p hp
  simp only [getPlanetPositions, List.mem_filterMap] at hp
  obtain ⟨body, _, hf⟩ := hp
  unfold planetOf at hf
  rcases hh : P.planetHorizon observer body.1 with e | hor
  · rw [hh] at hf
    simp at hf
  · rw [hh] at hf
    dsimp only at hf
    split_ifs at hf with halt
    simp only [Option.some.injEq] at hf
    subst hf
    exact halt

/-- C10: `getPlanetPositions` culls below-horizon planets itself, so
every planet marker (circle) in the planets layer comes from a planet
with positive altitude, placed at that planet's projected position. -/
theorem c10_planets_above_horizon (P : Providers) (stars : List CatalogStar)
    (observer : Observer) (options : RenderOptions) (cs : List Constellation) (v : ℚ) :
    (∀ p ∈ getPlanetPositions P observer, 0 < p.altitude) ∧
    (∀ L, (LayerType.planets, L) ∈ (buildStarMapGeometry P stars observer options cs v).layers →
      ∀ ctr rad id, RenderPrimitive.circle ctr rad id ∈ L.primitives →
        ∃ p ∈ getPlanetPositions P observer, 0 < p.altitude ∧
          ctr = ⟨buildCenter v + (P.proj p.altitude p.azimuth).x * buildScale v,
            buildCenter v + (P.proj p.altitude p.azimuth).y * buildScale v⟩ ∧
          rad = 3 ∧ id = some 0) := by
  refine ⟨getPlanetPositions_altitude P observer, ?_⟩
  intro L hmem ctr rad id hq
  rcases build_layers_cases P stars observer options cs v LayerType.planets L hmem with
    h | h | h | h | h | h | h | h | h | h | h | h
  · exact absurd h.1 (by decide)
  · exact absurd h.1 (by decide)
  · exact absurd h.1 (by decide)
  · exact absurd h.1 (by decide)
  · exact absurd h.1 (by decide)
  · exact absurd h.1 (by decide)
  · -- the planets layer
    rw [h.2.2.2] at hq
    have hstep : (buildPlStep P stars observer options cs v).1 =
        (planetsPhase P (getPlanetPositions P observer) (buildCenter v) (buildScale v)
          (buildRingRadius v) (buildSnStep P stars observer options cs v).2).1 := by
      unfold buildPlStep
      rw [if_pos (by simpa using h.2.1)]
    rw [hstep] at hq
    rcases runPhase_mem _ _ _ _ hq with ⟨p, hp, hpre⟩ | ⟨p, hp, l, _, habs⟩
    · simp only at hpre
      split_ifs at hpre with hdist
      · simp only [List.mem_singleton, createCircle] at hpre
        injection hpre with h1 h2 h3
        exact ⟨p, hp, getPlanetPositions_altitude P observer p hp, h1, h2, h3⟩
      · simp at hpre
    · exact absurd habs (by simp [createText])
  · exact absurd h.1 (by decide)
  · exact absurd h.1 (by decide)
  · exact absurd h.1 (by decide)
  · exact absurd h.1 (by decide)
  · exact absurd h.1 (by decide)

/-- C10 witness: with an always-succeeding planet provider, Mercury is
returned with altitude 45 > 0. -/
theorem c10_planets_above_horizon_witness :
    (⟨45, 90, "Mercury", 0⟩ : PlanetPosition) ∈
      getPlanetPositions okPlanetProviders stdObserver ∧
    (0 : ℚ) < 45 := by
  have hmem : (⟨45, 90, "Mercury", 0⟩ : PlanetPosition) ∈
      getPlanetPositions okPlanetProviders stdObserver := by
    simp only [getPlanetPositions, planetBodies, planetOf, okPlanetProviders, List.filterMap]
    norm_num
  exact ⟨hmem,
    (c10_planets_above_horizon okPlanetProviders [] stdObserver offOptions [] 1).1 _ hmem⟩

/-- A successful per-body result carries that body's name. -/
theorem planetOf_name (f : Observer → String → Except Unit AltAz) (o : Observer)
    (body : String × ℚ) (p : PlanetPosition) (hf : planetOf f o body = some p) :
    p.name = body.1 := by
  unfold planetOf at hf
  rcases hh : f o body.1 with e | hor <;> rw [hh] at hf <;> dsimp only at hf
  · simp at hf
  · split_ifs at hf
    simp only [Option.some.injEq] at hf
    subst hf
    rfl

/-- Failing one body drops exactly that body's entry from the per-body
collection loop and leaves every other body's result unchanged. -/
theorem filterMap_planetOf_failOn (f : Observer → String → Except Unit AltAz)
    (o : Observer) (b : String) (bodies : List (String × ℚ)) :
    bodies.filterMap (planetOf (failOn b f) o) =
      (bodies.filterMap (planetOf f o)).filter fun p => decide (p.name ≠ b) := by
  induction bodies with
  | nil => rfl
  | cons body rest ih =>
    rw [List.filterMap_cons, List.filterMap_cons]
    by_cases hb : body.1 = b
    · have h1 : planetOf (failOn b f) o body = none := by
        simp [planetOf, failOn, hb]
      rw [h1]
      rcases hf : planetOf f o body with _ | p
      · exact ih
      · have hname : p.name = b := (planetOf_name f o body p hf).trans hb
        rw [List.filter_cons, if_neg (by simp [hname])]
        exact ih
    · have h1 : planetOf (failOn b f) o body = planetOf f o body := by
        simp [planetOf, failOn, hb]
      rw [h1]
      rcases hf : planetOf f o body with _ | p
      · exact ih
      · have hname : p.name ≠ b := by
          rw [planetOf_name f o body p hf]
          exact hb
        rw [List.filter_cons, if_pos (by simp [hname])]
        rw [ih]

/-- C8: if the ephemeris provider throws for one body, that body alone
is omitted — `getPlanetPositions` returns the other bodies' positions —
and the build still returns a complete geometry: metadata, bounds and
the stars layer are untouched. -/
theorem c8_planet_failure_isolated (P : Providers) (stars : List CatalogStar)
    (observer : Observer) (options : RenderOptions) (cs : List Constellation) (v : ℚ)
    (b : String) :
    getPlanetPositions { P with planetHorizon := failOn b P.planetHorizon } observer =
      (getPlanetPositions P observer).filter (fun p => decide (p.name ≠ b)) ∧
    (buildStarMapGeometry { P with planetHorizon := failOn b P.planetHorizon }
        stars observer options cs v).metadata =
      (buildStarMapGeometry P stars observer options cs v).metadata ∧
    (buildStarMapGeometry { P with planetHorizon := failOn b P.planetHorizon }
        stars observer options cs v).bounds =
      (buildStarMapGeometry P stars observer options cs v).bounds ∧
    ∀ L L', (LayerType.stars, L) ∈ (buildStarMapGeometry
        { P with planetHorizon := failOn b P.planetHorizon } stars observer options cs v).layers →
      (LayerType.stars, L') ∈ (buildStarMapGeometry P stars observer options cs v).layers →
      L = L' := by
  refine ⟨filterMap_planetOf_failOn P.planetHorizon observer b planetBodies, rfl, rfl, ?_⟩
  intro L L' hL hL'
  have h1 := build_layers_cases _ stars observer options cs v LayerType.stars L hL
  have h2 := build_layers_cases P stars observer options cs v LayerType.stars L' hL'
  rcases h1 with h | h | h | h | h | h | h | h | h | h | h | h
  all_goals try exact absurd h.1 (by decide)
  rcases h2 with h' | h' | h' | h' | h' | h' | h' | h' | h' | h' | h' | h'
  all_goals try exact absurd h'.1 (by decide)
  rw [h.2, h'.2]
  rfl

/-- Membership in the consecutive-pairs list of a polyline, by index. -/
theorem mem_zip_tail {α : Type} (ls : List α) (p q : α) :
    (p, q) ∈ ls.zip ls.tail ↔
      ∃ i, ∃ hi : i + 1 < ls.length,
        ls.get ⟨i, Nat.lt_of_succ_lt hi⟩ = p ∧ ls.get ⟨i + 1, hi⟩ = q := by
  induction ls with
  | nil => simp
  | cons a rest ih =>
    cases rest with
    | nil => simp
    | cons b rest2 =>
      simp only [List.tail_cons, List.zip_cons_cons, List.mem_cons]
      constructor
      · rintro (h | h)
        · injection h with h1 h2
          exact ⟨0, by simp, by simpa using h1.symm, by simpa using h2.symm⟩
        · have h' : (p, q) ∈ (b :: rest2).zip (b :: rest2).tail := by simpa using h
          obtain ⟨i, hi, h1, h2⟩ := (ih).mp h'
          exact ⟨i + 1, by simpa using hi, by simpa using h1, by simpa using h2⟩
      · rintro ⟨i, hi, h1, h2⟩
        cases i with
        | zero =>
          left
          simp only [List.get] at h1 h2
          rw [← h1, ← h2]
        | succ j =>
          right
          have h' : (p, q) ∈ (b :: rest2).zip (b :: rest2).tail := by
            refine (ih).mpr ⟨j, by simpa using hi, ?_, ?_⟩
            · simpa using h1
            · simpa using h2
          simpa using h'

/-- Membership characterization for the constellation-lines step: a
primitive is emitted exactly when some consecutive vertex pair of some
polyline passes the two altitude tests and the two ring-radius tests. -/
theorem constellationLinesOf_mem (P : Providers) (observer : Observer)
    (cs : List Constellation) (center scale R : ℚ) (seg : RenderPrimitive) :
    seg ∈ constellationLinesOf P observer cs center scale R ↔
    ∃ c ∈ cs, ∃ ls ∈ c.lines, ∃ pq ∈ ls.zip ls.tail,
      0 < (P.raDecToAltAz pq.1.ra pq.1.dec observer).altitude ∧
      0 < (P.raDecToAltAz pq.2.ra pq.2.dec observer).altitude ∧
      distLTb (center + (P.proj (P.raDecToAltAz pq.1.ra pq.1.dec observer).altitude
          (P.raDecToAltAz pq.1.ra pq.1.dec observer).azimuth).x * scale - center)
        (center + (P.proj (P.raDecToAltAz pq.1.ra pq.1.dec observer).altitude
          (P.raDecToAltAz pq.1.ra pq.1.dec observer).azimuth).y * scale - center) R = true ∧
      distLTb (center + (P.proj (P.raDecToAltAz pq.2.ra pq.2.dec observer).altitude
          (P.raDecToAltAz pq.2.ra pq.2.dec observer).azimuth).x * scale - center)
        (center + (P.proj (P.raDecToAltAz pq.2.ra pq.2.dec observer).altitude
          (P.raDecToAltAz pq.2.ra pq.2.dec observer).azimuth).y * scale - center) R = true ∧
      seg = createLine
        (center + (P.proj (P.raDecToAltAz pq.1.ra pq.1.dec observer).altitude
          (P.raDecToAltAz pq.1.ra pq.1.dec observer).azimuth).x * scale)
        (center + (P.proj (P.raDecToAltAz pq.1.ra pq.1.dec observer).altitude
          (P.raDecToAltAz pq.1.ra pq.1.dec observer).azimuth).y * scale)
        (center + (P.proj (P.raDecToAltAz pq.2.ra pq.2.dec observer).altitude
          (P.raDecToAltAz pq.2.ra pq.2.dec observer).azimuth).x * scale)
        (center + (P.proj (P.raDecToAltAz pq.2.ra pq.2.dec observer).altitude
          (P.raDecToAltAz pq.2.ra pq.2.dec observer).azimuth).y * scale) := by
  unfold constellationLinesOf
  simp only [List.mem_flatMap, List.mem_filterMap]
  constructor
  · rintro ⟨c, hc, ls, hls, pq, hpq, hsome⟩
    refine ⟨c, hc, ls, hls, pq, hpq, ?_⟩
    split_ifs at hsome with h1 h2
    simp only [Option.some.injEq] at hsome
    exact ⟨h1.1, h1.2, by simpa using h2.1, by simpa using h2.2, hsome.symm⟩
  · rintro ⟨c, hc, ls, hls, pq, hpq, h1, h2, h3, h4, hseg⟩
    refine ⟨c, hc, ls, hls, pq, hpq, ?_⟩
    rw [if_pos ⟨h1, h2⟩, if_pos ⟨by simpa using h3, by simpa using h4⟩, hseg]

/-- C7: with constellations enabled, a segment appears in the
constellations layer exactly when it comes from a consecutive vertex
pair of some constellation polyline whose two endpoints are both above
the horizon and whose two projected endpoints both lie strictly inside
the ring-exclusion radius (distance from the centre below 0.96·scale);
a pair failing any test contributes nothing (dropped, never clipped). -/
theorem c7_segment_iff (P : Providers) (stars : List CatalogStar) (observer : Observer)
    (options : RenderOptions) (cs : List Constellation) (v : ℚ) (hv : 0 < v)
    (hopt : options.showConstellations = true) (seg : RenderPrimitive) :
    (∃ L, (LayerType.constellations, L) ∈
        (buildStarMapGeometry P stars observer options cs v).layers ∧ seg ∈ L.primitives) ↔
    (∃ c ∈ cs, ∃ ls ∈ c.lines, ∃ i, ∃ hi : i + 1 < ls.length,
      let p1 := ls.get ⟨i, Nat.lt_of_succ_lt hi⟩
      let p2 := ls.get ⟨i + 1, hi⟩
      let c1 := P.raDecToAltAz p1.ra p1.dec observer
      let c2 := P.raDecToAltAz p2.ra p2.dec observer
      let x1 := buildCenter v + (P.proj c1.altitude c1.azimuth).x * buildScale v
      let y1 := buildCenter v + (P.proj c1.altitude c1.azimuth).y * buildScale v
      let x2 := buildCenter v + (P.proj c2.altitude c2.azimuth).x * buildScale v
      let y2 := buildCenter v + (P.proj c2.altitude c2.azimuth).y * buildScale v
      0 < c1.altitude ∧ 0 < c2.altitude ∧
      Real.sqrt (((x1 - buildCenter v : ℚ) : ℝ) * ((x1 - buildCenter v : ℚ) : ℝ) +
          ((y1 - buildCenter v : ℚ) : ℝ) * ((y1 - buildCenter v : ℚ) : ℝ)) <
        ((buildRingRadius v : ℚ) : ℝ) ∧
      Real.sqrt (((x2 - buildCenter v : ℚ) : ℝ) * ((x2 - buildCenter v : ℚ) : ℝ) +
          ((y2 - buildCenter v : ℚ) : ℝ) * ((y2 - buildCenter v : ℚ) : ℝ)) <
        ((buildRingRadius v : ℚ) : ℝ) ∧
      seg = createLine x1 y1 x2 y2) := by
  have hR : (0 : ℚ) ≤ buildRingRadius v := by
    unfold buildRingRadius buildScale
    nlinarith
  constructor
  · rintro ⟨L, hL, hseg⟩
    rcases build_layers_cases P stars observer options cs v LayerType.constellations L hL with
      h | h | h | h | h | h | h | h | h | h | h | h
    all_goals try exact absurd h.1 (by decide)
    rw [h.2.2.2] at hseg
    simp only at hseg
    rw [constellationLinesOf_mem] at hseg
    obtain ⟨c, hc, ls, hls, pq, hpq, h1, h2, h3, h4, hseg'⟩ := hseg
    obtain ⟨p1, p2⟩ := pq
    obtain ⟨i, hi, hg1, hg2⟩ := (mem_zip_tail ls p1 p2).mp hpq
    refine ⟨c, hc, ls, hls, i, hi, ?_⟩
    rw [hg1, hg2]
    exact ⟨h1, h2, (distLTb_iff_sqrt _ _ _ hR).mp h3, (distLTb_iff_sqrt _ _ _ hR).mp h4, hseg'⟩
  · rintro ⟨c, hc, ls, hls, i, hi, h1, h2, h3, h4, hseg'⟩
    have hsegmem : seg ∈ constellationLinesOf P observer cs (buildCenter v) (buildScale v)
        (buildRingRadius v) := by
      rw [constellationLinesOf_mem]
      refine ⟨c, hc, ls, hls, (ls.get ⟨i, Nat.lt_of_succ_lt hi⟩, ls.get ⟨i + 1, hi⟩),
        (mem_zip_tail ls _ _).mpr ⟨i, hi, rfl, rfl⟩, h1, h2,
        (distLTb_iff_sqrt _ _ _ hR).mpr h3, (distLTb_iff_sqrt _ _ _ hR).mpr h4, hseg'⟩
    have hne : constellationLinesOf P observer cs (buildCenter v) (buildScale v)
        (buildRingRadius v) ≠ [] := List.ne_nil_of_mem hsegmem
    refine ⟨⟨LayerType.constellations, constellationLinesOf P observer cs (buildCenter v)
      (buildScale v) (buildRingRadius v), true⟩, ?_, hsegmem⟩
    simp only [buildStarMapGeometry, List.mem_append]
    refine Or.inl (Or.inl (Or.inl (Or.inl (Or.inl (Or.inl (Or.inl (Or.inl (Or.inr ?_))))))))
    rw [if_pos hopt, if_neg (by simpa using hne)]
    exact List.mem_singleton.mpr rfl

/-- C7 witness: a concrete two-vertex polyline above the horizon and at
the centre yields its segment in the constellations layer. -/
theorem c7_segment_iff_witness :
    ∃ L, (LayerType.constellations, L) ∈ (buildStarMapGeometry qProviders [] stdObserver
        { offOptions with showConstellations := true } [fakeConstellation] 1).layers ∧
      createLine (buildCenter 1 + (qProviders.proj 90 0).x * buildScale 1)
        (buildCenter 1 + (qProviders.proj 90 0).y * buildScale 1)
        (buildCenter 1 + (qProviders.proj 90 0).x * buildScale 1)
        (buildCenter 1 + (qProviders.proj 90 0).y * buildScale 1) ∈ L.primitives := by
  refine (c7_segment_iff qProviders [] stdObserver
    { offOptions with showConstellations := true } [fakeConstellation] 1
    (by norm_num) rfl _).mpr ?_
  refine ⟨fakeConstellation, List.mem_singleton.mpr rfl, [⟨0, 0⟩, ⟨1, 0⟩], ?_, 0, ?_, ?_⟩
  · simp [fakeConstellation]
  · norm_num
  · refine ⟨by decide, by decide, ?_, ?_, rfl⟩
    all_goals
      dsimp only [qProviders, List.get]
      rw [show qprojStd 90 0 = ⟨0, 0⟩ from by norm_num [qprojStd]]
      rw [show (buildCenter 1 + (Point2Q.mk 0 0).x * buildScale 1 - buildCenter 1 : ℚ) = 0
        from by norm_num]
      push_cast
      rw [show ((0 : ℝ) * 0 + 0 * 0) = 0 by ring, Real.sqrt_zero]
      have hpos : (0 : ℚ) < buildRingRadius 1 := by
        norm_num [buildRingRadius, buildScale]
      exact_mod_cast hpos

/-- C8 witness: failing Mars on a concrete provider, the planet list is
exactly the other bodies' list and the stars layer of a concrete build
is unchanged. -/
theorem c8_planet_failure_isolated_witness :
    (getPlanetPositions { okPlanetProviders with
        planetHorizon := failOn ("Mars") okPlanetProviders.planetHorizon } stdObserver =
      (getPlanetPositions okPlanetProviders stdObserver).filter
        (fun p => decide (p.name ≠ "Mars"))) ∧
    (⟨LayerType.stars, [], true⟩ : RenderLayer) = ⟨LayerType.stars, [], true⟩ :=
  ⟨(c8_planet_failure_isolated okPlanetProviders [] stdObserver offOptions [] 1 ("Mars")).1,
    (c8_planet_failure_isolated okPlanetProviders [] stdObserver offOptions [] 1
      ("Mars")).2.2.2 ⟨LayerType.stars, [], true⟩ ⟨LayerType.stars, [], true⟩
      (by decide) (by decide)⟩

/-- The separating-axis intersection test is symmetric. -/
theorem intersectsB_comm (a b : BoundingBox) : intersectsB a b = intersectsB b a := by
  unfold intersectsB
  congr 1
  rw [Bool.eq_iff_iff]
  simp only [Bool.or_eq_true, decide_eq_true_eq]
  tauto

/-- `canPlace` holds exactly when the candidate box intersects no
already-placed box. -/
theorem canPlace_iff (padding : ℚ) (placed : List BoundingBox) (x y : ℚ) (text : String)
    (anchor : Anchor) (fontSize : ℚ) :
    canPlace padding placed x y text anchor fontSize = true ↔
    ∀ p ∈ placed,
      intersectsB (estimateBoundingBox padding x y text anchor fontSize) p = false := by
  simp [canPlace, List.all_eq_true, Bool.not_eq_true']

/-- `textsOf` distributes over append. -/
theorem textsOf_append (xs ys : List RenderPrimitive) :
    textsOf (xs ++ ys) = textsOf xs ++ textsOf ys :=
  List.filter_append xs ys

/-- A list without text primitives contributes no texts. -/
theorem textsOf_eq_nil (xs : List RenderPrimitive)
    (h : ∀ q ∈ xs, isTextPrim q = false) : textsOf xs = [] := by
  rw [textsOf, List.filter_eq_nil_iff]
  intro q hq
  simp [h q hq]

/-- Computation rule: a phase item with no label candidate. -/
theorem runPhase_cons_none {α : Type} (f : α → List RenderPrimitive × Option LabelSpec)
    (a : α) (rest : List α) (st : List BoundingBox) (h : (f a).2 = none) :
    runPhase f (a :: rest) st =
      ((f a).1 ++ (runPhase f rest st).1, (runPhase f rest st).2) := by
  rw [runPhase, h]

/-- Computation rule: a successful label placement. -/
theorem runPhase_cons_some_true {α : Type} (f : α → List RenderPrimitive × Option LabelSpec)
    (a : α) (rest : List α) (st : List BoundingBox) (l : LabelSpec)
    (h : (f a).2 = some l) (hok : canPlace 8 st l.x l.y l.text l.anchor l.fontSize = true) :
    runPhase f (a :: rest) st =
      ((f a).1 ++ [createText l.x l.y l.text l.anchor Baseline.middle] ++
          (runPhase f rest
            (st ++ [estimateBoundingBox 8 l.x l.y l.text l.anchor l.fontSize])).1,
        (runPhase f rest
          (st ++ [estimateBoundingBox 8 l.x l.y l.text l.anchor l.fontSize])).2) := by
  rw [runPhase, h]
  dsimp only
  rw [tryPlace, if_pos hok]
  dsimp only [place]
  simp [List.append_assoc]

/-- Computation rule: a rejected label placement. -/
theorem runPhase_cons_some_false {α : Type} (f : α → List RenderPrimitive × Option LabelSpec)
    (a : α) (rest : List α) (st : List BoundingBox) (l : LabelSpec)
    (h : (f a).2 = some l) (hok : canPlace 8 st l.x l.y l.text l.anchor l.fontSize = false) :
    runPhase f (a :: rest) st =
      ((f a).1 ++ (runPhase f rest st).1, (runPhase f rest st).2) := by
  rw [runPhase, h]
  dsimp only
  simp [tryPlace, hok]

/-- The detector invariant of a placement phase: the state only grows
with boxes that were disjoint from everything already placed, every
emitted text's box (at the phase's font size) is among those new boxes,
and the emitted texts are pairwise non-overlapping. -/
theorem runPhase_disjoint {α : Type} (f : α → List RenderPrimitive × Option LabelSpec)
    (fontSize : ℚ)
    (Hpre : ∀ a, ∀ q ∈ (f a).1, isTextPrim q = false)
    (Hfs : ∀ a l, (f a).2 = some l → l.fontSize = fontSize) :
    ∀ (items : List α) (st : List BoundingBox),
      ∃ added, (runPhase f items st).2 = st ++ added ∧
        (∀ bx ∈ added, ∀ b0 ∈ st, intersectsB bx b0 = false) ∧
        (∀ q ∈ textsOf (runPhase f items st).1, boxOfPrim fontSize q ∈ added) ∧
        List.Pairwise (fun q1 q2 =>
          intersectsB (boxOfPrim fontSize q1) (boxOfPrim fontSize q2) = false)
          (textsOf (runPhase f items st).1) := by
  intro items
  induction items with
  | nil =>
    intro st
    exact ⟨[], by simp [runPhase], by simp, by simp [runPhase, textsOf],
      by simp [runPhase, textsOf]⟩
  | cons a rest ih =>
    intro st
    rcases hfa : (f a).2 with _ | l
    · obtain ⟨added, h1, h2, h3, h4⟩ := ih st
      rw [runPhase_cons_none f a rest st hfa]
      refine ⟨added, h1, h2, ?_, ?_⟩
      · intro q hq
        rw [show ((f a).1 ++ (runPhase f rest st).1, (runPhase f rest st).2).1 =
          (f a).1 ++ (runPhase f rest st).1 from rfl, textsOf_append,
          textsOf_eq_nil _ (Hpre a), List.nil_append] at hq
        exact h3 q hq
      · rw [show ((f a).1 ++ (runPhase f rest st).1, (runPhase f rest st).2).1 =
          (f a).1 ++ (runPhase f rest st).1 from rfl, textsOf_append,
          textsOf_eq_nil _ (Hpre a), List.nil_append]
        exact h4
    · by_cases hok : canPlace 8 st l.x l.y l.text l.anchor l.fontSize = true
      · set bbox := estimateBoundingBox 8 l.x l.y l.text l.anchor l.fontSize with hbboxdef
        obtain ⟨added, h1, h2, h3, h4⟩ := ih (st ++ [bbox])
        rw [runPhase_cons_some_true f a rest st l hfa hok]
        have htext : textsOf ((f a).1 ++ [createText l.x l.y l.text l.anchor Baseline.middle] ++
            (runPhase f rest (st ++ [bbox])).1) =
            createText l.x l.y l.text l.anchor Baseline.middle ::
              textsOf (runPhase f rest (st ++ [bbox])).1 := by
          rw [textsOf_append, textsOf_append, textsOf_eq_nil _ (Hpre a), List.nil_append]
          rw [show textsOf [createText l.x l.y l.text l.anchor Baseline.middle] =
            [createText l.x l.y l.text l.anchor Baseline.middle] from rfl]
          rfl
        have hbox : boxOfPrim fontSize (createText l.x l.y l.text l.anchor Baseline.middle) =
            bbox := by
          rw [hbboxdef, Hfs a l hfa]
          rfl
        refine ⟨bbox :: added, ?_, ?_, ?_, ?_⟩
        · rw [show ((f a).1 ++ _ ++ (runPhase f rest (st ++ [bbox])).1,
            (runPhase f rest (st ++ [bbox])).2).2 =
            (runPhase f rest (st ++ [bbox])).2 from rfl, h1]
          simp
        · intro bx hbx b0 hb0
          rcases List.mem_cons.mp hbx with hbx | hbx
          · subst hbx
            exact (canPlace_iff 8 st l.x l.y l.text l.anchor l.fontSize).mp hok b0 hb0
          · exact h2 bx hbx b0 (List.mem_append_left _ hb0)
        · intro q hq
          rw [show ((f a).1 ++ _ ++ (runPhase f rest (st ++ [bbox])).1,
            (runPhase f rest (st ++ [bbox])).2).1 =
            (f a).1 ++ _ ++ (runPhase f rest (st ++ [bbox])).1 from rfl, htext] at hq
          rcases List.mem_cons.mp hq with hq | hq
          · subst hq
            rw [hbox]
            exact List.mem_cons_self _ _
          · exact List.mem_cons_of_mem _ (h3 q hq)
        · rw [show ((f a).1 ++ _ ++ (runPhase f rest (st ++ [bbox])).1,
            (runPhase f rest (st ++ [bbox])).2).1 =
            (f a).1 ++ _ ++ (runPhase f rest (st ++ [bbox])).1 from rfl, htext]
          refine List.Pairwise.cons ?_ h4
          intro q hq
          rw [hbox, intersectsB_comm]
          exact h2 (boxOfPrim fontSize q) (h3 q hq) bbox
            (List.mem_append_right _ (List.mem_singleton.mpr rfl))
      · obtain ⟨added, h1, h2, h3, h4⟩ := ih st
        rw [runPhase_cons_some_false f a rest st l hfa (by simpa using hok)]
        refine ⟨added, h1, h2, ?_, ?_⟩
        · intro q hq
          rw [show ((f a).1 ++ (runPhase f rest st).1, (runPhase f rest st).2).1 =
            (f a).1 ++ (runPhase f rest st).1 from rfl, textsOf_append,
            textsOf_eq_nil _ (Hpre a), List.nil_append] at hq
          exact h3 q hq
        · rw [show ((f a).1 ++ (runPhase f rest st).1, (runPhase f rest st).2).1 =
            (f a).1 ++ (runPhase f rest st).1 from rfl, textsOf_append,
            textsOf_eq_nil _ (Hpre a), List.nil_append]
          exact h4

/-- The pairwise-disjointness component of the detector invariant. -/
theorem runPhase_texts_pairwise {α : Type} (f : α → List RenderPrimitive × Option LabelSpec)
    (fontSize : ℚ)
    (Hpre : ∀ a, ∀ q ∈ (f a).1, isTextPrim q = false)
    (Hfs : ∀ a l, (f a).2 = some l → l.fontSize = fontSize)
    (items : List α) (st : List BoundingBox) :
    List.Pairwise (fun q1 q2 =>
      intersectsB (boxOfPrim fontSize q1) (boxOfPrim fontSize q2) = false)
      (textsOf (runPhase f items st).1) := by
  obtain ⟨_, _, _, _, h4⟩ := runPhase_disjoint f fontSize Hpre Hfs items st
  exact h4

/-- Constellation-name labels placed in one build are pairwise
non-overlapping (font size 11). -/
theorem constellationNamesPhase_disjoint (labels : List ConstLabel)
    (st : List BoundingBox) :
    PairwiseNonOverlapping 11 (constellationNamesPhase labels st).1 := by
  unfold constellationNamesPhase PairwiseNonOverlapping
  refine runPhase_texts_pairwise _ 11 ?_ ?_ _ st
  · intro a q hq
    simp at hq
  · intro a l h
    cases h
    rfl

/-- Star-name labels placed in one build are pairwise non-overlapping
(font size 9). -/
theorem starNamesPhase_disjoint (projectedStars : List ProjectedStar) (center R : ℚ)
    (st : List BoundingBox) :
    PairwiseNonOverlapping 9 (starNamesPhase projectedStars center R st).1 := by
  unfold starNamesPhase PairwiseNonOverlapping
  dsimp only
  refine runPhase_texts_pairwise _ 9 ?_ ?_ _ st
  · intro a q hq
    simp at hq
  · intro a l h
    cases h
    rfl

/-- Planet labels placed in one build are pairwise non-overlapping
(font size 9); the planet markers are circles, not texts. -/
theorem planetsPhase_disjoint (P : Providers) (planetPositions : List PlanetPosition)
    (center scale R : ℚ) (st : List BoundingBox) :
    PairwiseNonOverlapping 9 (planetsPhase P planetPositions center scale R st).1 := by
  unfold planetsPhase PairwiseNonOverlapping
  refine runPhase_texts_pairwise _ 9 ?_ ?_ _ st
  · intro a q hq
    dsimp only at hq
    split_ifs at hq
    · simp only [List.mem_singleton] at hq
      subst hq
      rfl
    · simp at hq
  · intro a l h
    dsimp only at h
    split_ifs at h
    cases h
    rfl

/-- Degree-ring numeral labels placed in one build are pairwise
non-overlapping (font size 8); ticks are lines and the bezel is circles. -/
theorem degreeRingPhase_disjoint (P : Providers) (center scale : ℚ)
    (st : List BoundingBox) :
    PairwiseNonOverlapping 8 (degreeRingPhase P center scale st).1 := by
  unfold degreeRingPhase PairwiseNonOverlapping
  dsimp only
  rw [textsOf_append, textsOf_eq_nil
    [createCircle center center (scale * 1.02) none,
      createCircle center center (scale * 1) none,
      createCircle center center (scale * 0.96) none,
      createCircle center center (scale * 0.94) none]
    (by intro q hq; fin_cases hq <;> rfl), List.append_nil]
  refine runPhase_texts_pairwise _ 8 ?_ ?_ _ st
  · intro a q hq
    dsimp only at hq
    simp only [List.mem_singleton] at hq
    subst hq
    rfl
  · intro a l h
    dsimp only at h
    split_ifs at h
    cases h
    rfl

/-- C9 amended: within any single built geometry, no two text
primitives of the same tryPlace-gated priority class (constellation
names at font size 11, star names at 9, planet labels at 9, degree-ring
labels at 8) have intersecting estimated bounding boxes; the cardinal
markers, which are placed unconditionally, are exempt and may overlap
each other. -/
theorem c9_label_disjoint_amended (P : Providers) (stars : List CatalogStar)
    (observer : Observer) (options : RenderOptions) (cs : List Constellation) (v : ℚ) :
    ∀ t L, (t, L) ∈ (buildStarMapGeometry P stars observer options cs v).layers →
      (t = LayerType.constellationNames → PairwiseNonOverlapping 11 L.primitives) ∧
      (t = LayerType.starNames → PairwiseNonOverlapping 9 L.primitives) ∧
      (t = LayerType.planets → PairwiseNonOverlapping 9 L.primitives) ∧
      (t = LayerType.degreeRing → PairwiseNonOverlapping 8 L.primitives) := by
  intro t L hmem
  rcases build_layers_cases P stars observer options cs v t L hmem with
    h | h | h | h | h | h | h | h | h | h | h | h
  · rw [h.1]
    exact ⟨fun ht => absurd ht (by decide), fun ht => absurd ht (by decide),
      fun ht => absurd ht (by decide), fun ht => absurd ht (by decide)⟩
  · rw [h.1]
    exact ⟨fun ht => absurd ht (by decide), fun ht => absurd ht (by decide),
      fun ht => absurd ht (by decide), fun ht => absurd ht (by decide)⟩
  · rw [h.1]
    exact ⟨fun ht => absurd ht (by decide), fun ht => absurd ht (by decide),
      fun ht => absurd ht (by decide), fun ht => absurd ht (by decide)⟩
  · rw [h.1]
    exact ⟨fun ht => absurd ht (by decide), fun ht => absurd ht (by decide),
      fun ht => absurd ht (by decide), fun ht => absurd ht (by decide)⟩
  · -- constellation names
    rw [h.1]
    refine ⟨fun _ => ?_, fun ht => absurd ht (by decide),
      fun ht => absurd ht (by decide), fun ht => absurd ht (by decide)⟩
    rw [h.2.2.2]
    show PairwiseNonOverlapping 11 (buildCnStep P observer options cs v).1
    unfold buildCnStep
    rw [if_pos (by simpa using h.2.1)]
    exact constellationNamesPhase_disjoint _ _
  · -- star names
    rw [h.1]
    refine ⟨fun ht => absurd ht (by decide), fun _ => ?_,
      fun ht => absurd ht (by decide), fun ht => absurd ht (by decide)⟩
    rw [h.2.2.2]
    show PairwiseNonOverlapping 9 (buildSnStep P stars observer options cs v).1
    unfold buildSnStep
    rw [if_pos (by simpa using h.2.1)]
    exact starNamesPhase_disjoint _ _ _ _
  · -- planets
    rw [h.1]
    refine ⟨fun ht => absurd ht (by decide), fun ht => absurd ht (by decide),
      fun _ => ?_, fun ht => absurd ht (by decide)⟩
    rw [h.2.2.2]
    show PairwiseNonOverlapping 9 (buildPlStep P stars observer options cs v).1
    unfold buildPlStep
    rw [if_pos (by simpa using h.2.1)]
    exact planetsPhase_disjoint _ _ _ _ _ _
  · rw [h.1]
    exact ⟨fun ht => absurd ht (by decide), fun ht => absurd ht (by decide),
      fun ht => absurd ht (by decide), fun ht => absurd ht (by decide)⟩
  · rw [h.1]
    exact ⟨fun ht => absurd ht (by decide), fun ht => absurd ht (by decide),
      fun ht => absurd ht (by decide), fun ht => absurd ht (by decide)⟩
  · rw [h.1]
    exact ⟨fun ht => absurd ht (by decide), fun ht => absurd ht (by decide),
      fun ht => absurd ht (by decide), fun ht => absurd ht (by decide)⟩
  · -- degree ring
    rw [h.1]
    refine ⟨fun ht => absurd ht (by decide), fun ht => absurd ht (by decide),
      fun ht => absurd ht (by decide), fun _ => ?_⟩
    rw [h.2.2]
    show PairwiseNonOverlapping 8 (buildDrStep P stars observer options cs v).1
    unfold buildDrStep
    rw [if_pos (by simpa using h.2.1)]
    exact degreeRingPhase_disjoint _ _ _ _
  · rw [h.1]
    exact ⟨fun ht => absurd ht (by decide), fun ht => absurd ht (by decide),
      fun ht => absurd ht (by decide), fun ht => absurd ht (by decide)⟩

/-- The cardinal phase emits the four markers at the projected cardinal
positions, regardless of the incoming detector state. -/
theorem cardinalsPhase_prims (P : Providers) (center scale : ℚ) (st : List BoundingBox) :
    (cardinalsPhase P center scale st).1 =
      [createText (center + (P.proj (-5) 0).x * scale) (center + (P.proj (-5) 0).y * scale)
          ("N") Anchor.middle Baseline.middle,
        createText (center + (P.proj (-5) 90).x * scale) (center + (P.proj (-5) 90).y * scale)
          ("E") Anchor.middle Baseline.middle,
        createText (center + (P.proj (-5) 180).x * scale) (center + (P.proj (-5) 180).y * scale)
          ("S") Anchor.middle Baseline.middle,
        createText (center + (P.proj (-5) 270).x * scale) (center + (P.proj (-5) 270).y * scale)
          ("W") Anchor.middle Baseline.middle] := by
  simp [cardinalsPhase]

/-- Concrete evaluation: the cardinal step of a viewport-1 build with
the rational projection shadow. -/
theorem cdStep_concrete :
    (buildCdStep qProviders [] stdObserver cardinalOptions [] 1).1 =
      [createText (1/2) (71/3600) ("N") Anchor.middle Baseline.middle,
        createText (3529/3600) (1/2) ("E") Anchor.middle Baseline.middle,
        createText (1/2) (3529/3600) ("S") Anchor.middle Baseline.middle,
        createText (71/3600) (1/2) ("W") Anchor.middle Baseline.middle] := by
  unfold buildCdStep
  rw [if_pos (show cardinalOptions.showCardinals = true from rfl), cardinalsPhase_prims]
  norm_num [qProviders, qprojStd, buildCenter, buildScale, createText]

/-- The four cardinal boxes at viewport size 1: N and E overlap. -/
theorem cardinal_boxes_overlap :
    intersectsB
      (boxOfPrim 14 (createText (1/2) (71/3600) ("N") Anchor.middle Baseline.middle))
      (boxOfPrim 14 (createText (3529/3600) (1/2) ("E") Anchor.middle Baseline.middle)) =
      true := by
  simp only [boxOfPrim, createText, estimateBoundingBox, intersectsB,
    show ("N").length = 1 from rfl, show ("E").length = 1 from rfl]
  norm_num

/-- C9 counterexample: at viewport size 1 with cardinals enabled, the
built geometry's cardinals layer contains the N and E markers, and
their estimated bounding boxes (the detector heuristic at the cardinal
font size 14 with padding 8) intersect: two text primitives of the same
priority class overlap, because cardinal markers are placed
unconditionally, never through `tryPlace`. -/
theorem c9_label_overlap_counterexample :
    ∃ L, (LayerType.cardinals, L) ∈
        (buildStarMapGeometry qProviders [] stdObserver cardinalOptions [] 1).layers ∧
      createText (1/2) (71/3600) ("N") Anchor.middle Baseline.middle ∈ L.primitives ∧
      createText (3529/3600) (1/2) ("E") Anchor.middle Baseline.middle ∈ L.primitives ∧
      intersectsB
        (boxOfPrim 14 (createText (1/2) (71/3600) ("N") Anchor.middle Baseline.middle))
        (boxOfPrim 14 (createText (3529/3600) (1/2) ("E") Anchor.middle Baseline.middle)) =
        true := by
  refine ⟨⟨LayerType.cardinals,
    (buildCdStep qProviders [] stdObserver cardinalOptions [] 1).1, true⟩, ?_, ?_, ?_,
    cardinal_boxes_overlap⟩
  · simp only [buildStarMapGeometry, List.mem_append]
    refine Or.inl (Or.inl (Or.inr ?_))
    rw [if_pos (show cardinalOptions.showCardinals = true from rfl)]
    exact List.mem_singleton.mpr rfl
  · rw [cdStep_concrete]
    simp
  · rw [cdStep_concrete]
    simp

/-- Concrete evaluation: the test constellation yields one label
candidate at the centre, offset 15 up, with two visible points. -/
theorem constellationLabels_concrete :
    constellationLabelsOf qProviders stdObserver [fakeConstellation]
      (buildCenter 1) (buildScale 1) (buildRingRadius 1) =
      [⟨("FAKE"), 1/2, -29/2, 2⟩] := by
  norm_num [constellationLabelsOf, fakeConstellation, qProviders, qprojStd,
    buildCenter, buildScale, buildRingRadius, distLTb, List.filterMap, ConstLabel.mk.injEq]

/-- Concrete evaluation: the constellation-name step places the single
test label on the empty detector, before cardinals reserve any space. -/
theorem cnStep_concrete :
    buildCnStep qProviders stdObserver cardinalAndNamesOptions [fakeConstellation] 1 =
      ([createText (1/2) (-29/2) ("FAKE") Anchor.middle Baseline.middle],
        [estimateBoundingBox 8 (1/2) (-29/2) ("FAKE") Anchor.middle 11]) := by
  unfold buildCnStep
  rw [if_pos (show cardinalAndNamesOptions.showConstellationNames = true from rfl)]
  have hlabels : constellationLabelsOf qProviders stdObserver [fakeConstellation]
      (buildCenter 1) (buildScale 1) (buildRingRadius 1) =
      [⟨("FAKE"), 1/2, -29/2, 2⟩] := constellationLabels_concrete
  unfold constellationNamesPhase
  rw [hlabels]
  simp [runPhase, tryPlace, canPlace, place, createText]

/-- C9 amended witness: a concrete build whose constellation-names
layer holds one placed label, pairwise non-overlapping by the theorem. -/
theorem c9_label_disjoint_amended_witness :
    ((LayerType.constellationNames,
      (⟨LayerType.constellationNames,
        [createText (1/2) (-29/2) ("FAKE") Anchor.middle Baseline.middle], true⟩ :
          RenderLayer)) ∈
      (buildStarMapGeometry qProviders [] stdObserver cardinalAndNamesOptions
        [fakeConstellation] 1).layers) ∧
    PairwiseNonOverlapping 11
      [createText (1/2) (-29/2) ("FAKE") Anchor.middle Baseline.middle] := by
  have hcn : (buildCnStep qProviders stdObserver cardinalAndNamesOptions
      [fakeConstellation] 1).1 =
      [createText (1/2) (-29/2) ("FAKE") Anchor.middle Baseline.middle] :=
    congrArg Prod.fst cnStep_concrete
  have hmem : (LayerType.constellationNames,
      (⟨LayerType.constellationNames,
        [createText (1/2) (-29/2) ("FAKE") Anchor.middle Baseline.middle], true⟩ :
          RenderLayer)) ∈
      (buildStarMapGeometry qProviders [] stdObserver cardinalAndNamesOptions
        [fakeConstellation] 1).layers := by
    simp only [buildStarMapGeometry, List.mem_append]
    refine Or.inl (Or.inl (Or.inl (Or.inl (Or.inl (Or.inl (Or.inl (Or.inr ?_)))))))
    rw [if_pos (show cardinalAndNamesOptions.showConstellationNames = true from rfl), hcn]
    simp
  refine ⟨hmem, ?_⟩
  have := (c9_label_disjoint_amended qProviders [] stdObserver cardinalAndNamesOptions
    [fakeConstellation] 1 LayerType.constellationNames _ hmem).1 rfl
  simpa using this

/-- Concrete evaluation: the cardinal step of the cardinals-and-names
build emits the same four markers (its primitives do not depend on the
detector state it receives). -/
theorem cdStep_concrete_names :
    (buildCdStep qProviders [] stdObserver cardinalAndNamesOptions [fakeConstellation] 1).1 =
      [createText (1/2) (71/3600) ("N") Anchor.middle Baseline.middle,
        createText (3529/3600) (1/2) ("E") Anchor.middle Baseline.middle,
        createText (1/2) (3529/3600) ("S") Anchor.middle Baseline.middle,
        createText (71/3600) (1/2) ("W") Anchor.middle Baseline.middle] := by
  unfold buildCdStep
  rw [if_pos (show cardinalAndNamesOptions.showCardinals = true from rfl),
    cardinalsPhase_prims]
  norm_num [qProviders, qprojStd, buildCenter, buildScale, createText]

/-- C1 evidence of the code bug: in a build with cardinals and
constellation names both enabled, the constellation-name phase runs on
an empty detector and places a label whose box overlaps the N cardinal's
box; the cardinals are placed only afterwards.  Had the cardinals
reserved their space first, as the claim (and the source comment
"highest priority - always placed first") states, `canPlace` would have
rejected that label — the final conjunct shows exactly that. -/
theorem c1_cardinal_priority_code_bug :
    (buildCnStep qProviders stdObserver cardinalAndNamesOptions [fakeConstellation] 1).1 =
      [createText (1/2) (-29/2) ("FAKE") Anchor.middle Baseline.middle] ∧
    createText (1/2) (71/3600) ("N") Anchor.middle Baseline.middle ∈
      (buildCdStep qProviders [] stdObserver cardinalAndNamesOptions [fakeConstellation] 1).1 ∧
    intersectsB
      (boxOfPrim 11 (createText (1/2) (-29/2) ("FAKE") Anchor.middle Baseline.middle))
      (boxOfPrim 14 (createText (1/2) (71/3600) ("N") Anchor.middle Baseline.middle)) =
      true ∧
    canPlace 8 [estimateBoundingBox 8 (1/2) (71/3600) ("N") Anchor.middle 14]
      (1/2) (-29/2) ("FAKE") Anchor.middle 11 = false := by
  refine ⟨congrArg Prod.fst cnStep_concrete, ?_, ?_, ?_⟩
  · rw [cdStep_concrete_names]
    simp
  · simp only [boxOfPrim, createText, estimateBoundingBox, intersectsB,
      show ("FAKE").length = 4 from rfl, show ("N").length = 1 from rfl]
    norm_num
  · simp only [canPlace, estimateBoundingBox, intersectsB, List.all_cons, List.all_nil,
      show ("FAKE").length = 4 from rfl, show ("N").length = 1 from rfl]
    norm_num

/-- The rational projection shadow `qprojStd` agrees with the
real-valued `projectAzimuthalEquidistant` (default configuration) at
every input the concrete builds above use: the zenith, and altitude −5
at the four cardinal azimuths. -/
theorem qprojStd_matches_projection :
    (∀ az : ℚ, ((qprojStd 90 az).x : ℝ) =
        (projectAzimuthalEquidistant 90 (az : ℝ) DEFAULT_PROJECTION_CONFIG).x ∧
      ((qprojStd 90 az).y : ℝ) =
        (projectAzimuthalEquidistant 90 (az : ℝ) DEFAULT_PROJECTION_CONFIG).y) ∧
    (((qprojStd (-5) 0).x : ℝ) =
        (projectAzimuthalEquidistant (-5) 0 DEFAULT_PROJECTION_CONFIG).x ∧
      ((qprojStd (-5) 0).y : ℝ) =
        (projectAzimuthalEquidistant (-5) 0 DEFAULT_PROJECTION_CONFIG).y) ∧
    (((qprojStd (-5) 90).x : ℝ) =
        (projectAzimuthalEquidistant (-5) 90 DEFAULT_PROJECTION_CONFIG).x ∧
      ((qprojStd (-5) 90).y : ℝ) =
        (projectAzimuthalEquidistant (-5) 90 DEFAULT_PROJECTION_CONFIG).y) ∧
    (((qprojStd (-5) 180).x : ℝ) =
        (projectAzimuthalEquidistant (-5) 180 DEFAULT_PROJECTION_CONFIG).x ∧
      ((qprojStd (-5) 180).y : ℝ) =
        (projectAzimuthalEquidistant (-5) 180 DEFAULT_PROJECTION_CONFIG).y) ∧
    (((qprojStd (-5) 270).x : ℝ) =
        (projectAzimuthalEquidistant (-5) 270 DEFAULT_PROJECTION_CONFIG).x ∧
      ((qprojStd (-5) 270).y : ℝ) =
        (projectAzimuthalEquidistant (-5) 270 DEFAULT_PROJECTION_CONFIG).y) := by
  refine ⟨?_, ?_, ?_, ?_, ?_⟩
  · intro az
    rw [project_zenith]
    constructor <;> norm_num [qprojStd]
  · rw [show qprojStd (-5) 0 = ⟨0, -(19/18)⟩ from by norm_num [qprojStd]]
    constructor
    · rw [project_default_x, show ((0 : ℝ) * Real.pi / 180) = 0 by ring, Real.sin_zero]
      norm_num
    · rw [project_default_y, show ((0 : ℝ) * Real.pi / 180) = 0 by ring, Real.cos_zero]
      norm_num
  · rw [show qprojStd (-5) 90 = ⟨19/18, 0⟩ from by norm_num [qprojStd]]
    constructor
    · rw [project_default_x,
        show ((90 : ℝ) * Real.pi / 180) = Real.pi / 2 by ring, Real.sin_pi_div_two]
      norm_num
    · rw [project_default_y,
        show ((90 : ℝ) * Real.pi / 180) = Real.pi / 2 by ring, Real.cos_pi_div_two]
      norm_num
  · rw [show qprojStd (-5) 180 = ⟨0, 19/18⟩ from by norm_num [qprojStd]]
    constructor
    · rw [project_default_x,
        show ((180 : ℝ) * Real.pi / 180) = Real.pi by ring, Real.sin_pi]
      norm_num
    · rw [project_default_y,
        show ((180 : ℝ) * Real.pi / 180) = Real.pi by ring, Real.cos_pi]
      norm_num
  · rw [show qprojStd (-5) 270 = ⟨-(19/18), 0⟩ from by norm_num [qprojStd]]
    constructor
    · rw [project_default_x,
        show ((270 : ℝ) * Real.pi / 180) = Real.pi + Real.pi / 2 by ring]
      simp [Real.sin_add, Real.sin_pi, Real.cos_pi, Real.sin_pi_div_two, Real.cos_pi_div_two]
      norm_num
    · rw [project_default_y,
        show ((270 : ℝ) * Real.pi / 180) = Real.pi + Real.pi / 2 by ring]
      simp [Real.cos_add, Real.sin_pi, Real.cos_pi, Real.sin_pi_div_two, Real.cos_pi_div_two]
